import Mathlib

/-!
Shallow embedding of the Bitmovin ConvivaAnalytics integration
(`src/ts/ConvivaAnalytics.ts`): the session lifecycle controller, the
event handlers, the stall-tracking debouncer, the ad-position classifier
and the player-event subscription registry, together with proofs of the
behavioural claims about them.

JavaScript numbers that can legitimately be `Infinity` (schedule times,
durations) are embedded as `JNum` (a rational or the infinity sentinel);
nullable fields are embedded as `Option`; the JS truthiness test
`if (this.lastSeenBitrate)` is embedded as "is some non-zero value".
Calls into the Conviva backend (client / player-state manager) are the
observable output of every operation and are collected in a `List Call`.
-/

/-- A JavaScript number as used for schedule times and durations:
either a finite rational or the `Infinity` sentinel. -/
inductive JNum where
  | fin (q : ℚ)
  | inf
deriving DecidableEq, Repr

/-- `a ≤ b` on `JNum` (`Infinity` is the greatest element; no NaN arises
in the modelled code paths). -/
def JNum.jle : JNum → JNum → Bool
  | JNum.fin a, JNum.fin b => a ≤ b
  | JNum.fin _, JNum.inf => true
  | JNum.inf, JNum.fin _ => false
  | JNum.inf, JNum.inf => true

/-- Conviva ad positions (`Conviva.Client.AdPosition`). -/
inductive AdPosition where
  | preroll
  | midroll
  | postroll
deriving DecidableEq, Repr

/-- Conviva player states (`Conviva.PlayerStateManager.PlayerState`). -/
inductive PlayerState where
  | stopped
  | playing
  | paused
  | buffering
deriving DecidableEq, Repr

/-- Conviva stream types (`Conviva.ContentMetadata.StreamType`). -/
inductive StreamTy where
  | vod
  | live
deriving DecidableEq, Repr

/-- One layer (derived values or caller overrides) of the content
metadata. Modelled from the spec: the `ContentMetadataBuilder` source
file is not part of `src/`; §4.2 of the spec describes two input layers
merged at read time, with the `custom` map merged key-by-key. -/
structure MetadataLayer where
  assetName : Option String := none
  viewerId : Option String := none
  streamType : Option StreamTy := none
  duration : Option JNum := none
  streamUrl : Option String := none
  playerName : Option String := none
  custom : List (String × String) := []
deriving DecidableEq, Repr

/-- The resolved content-metadata snapshot handed to the backend:
per field the override value if present, else the derived value, else
the backend default (`none` / empty map). -/
structure Metadata where
  assetName : Option String := none
  viewerId : Option String := none
  streamType : Option StreamTy := none
  duration : Option JNum := none
  streamUrl : Option String := none
  playerName : Option String := none
  custom : List (String × String) := []
deriving DecidableEq, Repr

/-- The backend-defaults snapshot: what `build()` yields when neither
layer holds any value. -/
def Metadata.defaults : Metadata := {}

/-- Shallow per-key merge of two string maps: entries of `over` win over
entries of `base` with the same key; `base` entries keep their order. -/
def mergeKV (base over : List (String × String)) : List (String × String) :=
  base.filter (fun kv => ¬ over.any (fun kv2 => kv2.1 = kv.1)) ++ over

/-- Modelled from the spec: the `ContentMetadataBuilder` (its source file
is not under `src/`). It holds the automatically derived layer, the
caller-supplied override layer and the playback-started flag (§4.2). -/
structure ContentMetadataBuilder where
  derived : MetadataLayer := {}
  overrides : MetadataLayer := {}
  playbackStarted : Bool := false
deriving DecidableEq, Repr

/-- `build()`: override value if present, else derived value, else
backend default; the custom map is a shallow key-by-key merge in which
overrides win. Modelled from the spec (§4.2). -/
def ContentMetadataBuilder.build (b : ContentMetadataBuilder) : Metadata :=
  { assetName := b.overrides.assetName.orElse (fun _ => b.derived.assetName)
    viewerId := b.overrides.viewerId.orElse (fun _ => b.derived.viewerId)
    streamType := b.overrides.streamType.orElse (fun _ => b.derived.streamType)
    duration := b.overrides.duration.orElse (fun _ => b.derived.duration)
    streamUrl := b.overrides.streamUrl.orElse (fun _ => b.derived.streamUrl)
    playerName := b.overrides.playerName.orElse (fun _ => b.derived.playerName)
    custom := mergeKV b.derived.custom b.overrides.custom }

/-- `reset()`: clears all derived and override state in preparation for
the next session. Modelled from the spec (§4.2). -/
def ContentMetadataBuilder.reset (_b : ContentMetadataBuilder) : ContentMetadataBuilder := {}

/-- The `assetName` getter used by `initializeSession`'s guard: the
override if set, otherwise the derived value (the loaded source's
title). Modelled from the spec (§3: resolvable "from the explicit
override or from the loaded source's title"). -/
def ContentMetadataBuilder.assetName (b : ContentMetadataBuilder) : Option String :=
  b.overrides.assetName.orElse (fun _ => b.derived.assetName)

/-- A loaded player source (as far as the integration inspects it). -/
structure SourceCfg where
  title : Option String := none
  url : String := ""
  vrContentType : Option String := none
deriving DecidableEq, Repr

/-- The ambient, externally owned player state read by the handlers
(`player.getSource()`, `getDuration()`, `isLive()`, `isPlaying()`,
`version`, config-derived autoplay/preload, player/stream type). -/
structure PlayerCtx where
  source : Option SourceCfg := none
  duration : JNum := JNum.fin 0
  isLive : Bool := false
  isPlaying : Bool := false
  version : String := "8.0.0"
  playerType : String := "html5"
  streamTypeStr : String := "dash"
  autoplay : Bool := false
  preload : Bool := false
deriving DecidableEq, Repr

/-- `ConvivaAnalytics.VERSION` (the build-time placeholder string). -/
def integrationVersion : String := "\x7b\x7bVERSION\x7d\x7d"

/-- `Math.round(bitrate / 1000)` for a non-negative integer raw bitrate:
round half away from zero, i.e. `(b + 500) / 1000` in integer division. -/
def bitrateKbps (b : ℕ) : ℕ := (b + 500) / 1000

/-- `mapAdPosition` (`ConvivaAnalytics.ts:557`): `PREROLL` if the ad
break's `scheduleTime ≤ 0`, else `POSTROLL` if `scheduleTime ≥` the
player's duration, else `MIDROLL`. Pure: a function of the schedule
time and the duration only. -/
def mapAdPosition (scheduleTime : JNum) (duration : JNum) : AdPosition :=
  if scheduleTime.jle (JNum.fin 0) then
    AdPosition.preroll
  else if duration.jle scheduleTime then
    AdPosition.postroll
  else
    AdPosition.midroll

/-- `Math.round` on a rational (JS rounds halves toward positive
infinity), used for seek targets. -/
def jsRound (q : ℚ) : ℤ := ⌊q + 1/2⌋

/-- An observable call issued to the Conviva backend (client or
player-state manager) or to the logging sink. -/
inductive Call where
  | logWarning
  | logError
  | getPlayerStateManager
  | setPlayerType (name : String)
  | setPlayerVersion (v : String)
  | createSession (md : Metadata)
  | updateContentMetadata (md : Metadata)
  | setPlayerState (st : PlayerState)
  | attachPlayer
  | detachPlayer
  | cleanupSession
  | releasePlayerStateManager
  | setBitrateKbps (kbps : ℕ)
  | setSeekStart (target : ℤ)
  | setSeekEnd
  | adStart (pos : AdPosition)
  | adEnd
  | sendCustomEvent
  | reportError (msg : String)
deriving DecidableEq, Repr

/-- The mutable per-instance state owned by the session lifecycle
controller (`ConvivaAnalytics`'s fields). `sessionKey = none` is the
`Conviva.Client.NO_SESSION_KEY` sentinel; `nextKey` models the backend
handing out a fresh valid key on `createSession`. The stall-tracking
`Timeout` is embedded as its armed flag. -/
structure State where
  sessionKey : Option ℕ := none
  nextKey : ℕ := 0
  isAd : Bool := false
  adBreakStartedToFire : Option JNum := none
  lastSeenBitrate : Option ℕ := none
  stallTimerArmed : Bool := false
  builder : ContentMetadataBuilder := {}
deriving DecidableEq, Repr

/-- `isSessionActive()`: the session key differs from the no-session
sentinel. -/
def isSessionActive (s : State) : Bool := s.sessionKey.isSome

/-- JS truthiness of the nullable numeric field `lastSeenBitrate`:
`null`/absent and `0` are falsy, every other number is truthy. -/
def truthyBitrate : Option ℕ → Bool
  | none => false
  | some b => b ≠ 0

/-- The player events dispatched to the integration's handlers, plus
`timerFire`, which models the stall-tracking debounce window elapsing
(the `Timeout` callback running). `custom` stands for the events routed
to `onCustomEvent` (muted, unmuted, view-mode changed, cast started or
stopped, audio-quality changed, ad skipped, ad error). -/
inductive Ev where
  | sourceLoaded
  | play
  | playing
  | paused
  | stallStarted
  | stallEnded
  | playbackFinished
  | videoQualityChanged (bitrate : ℕ)
  | adBreakStarted (scheduleTime : JNum)
  | adBreakFinished
  | seek (target : ℚ)
  | seeked
  | timeShift
  | timeShifted
  | sourceUnloaded
  | error (msg : String)
  | custom
  | timerFire
deriving DecidableEq, Repr

/-- The event-type tags used by `onPlaybackStateChanged`'s switch. -/
inductive StateChangeTy where
  | play
  | seek
  | timeShift
  | stallStarted
  | playing
  | paused
  | seeked
  | timeShifted
  | stallEnded
  | playbackFinished
deriving DecidableEq, Repr

/-- `getUrlFromSource`: the stream URL for the current stream type (the
embedding keeps one URL per source). -/
def getUrlFromSource (source : SourceCfg) : String := source.url

/-- `getAssetNameFromSource`: the source title, falling back to the
literal placeholder. -/
def getAssetNameFromSource (source : SourceCfg) : String :=
  match source.title with
  | some t => t
  | none => "Untitled (no source.title set)"

/-- `buildSourceRelatedMetadata`: derived asset name from the source
title, custom tags for player/stream/VR type, and the stream URL
(the `viewerId` line of the source is a self-assignment, a no-op). -/
def buildSourceRelatedMetadata (ctx : PlayerCtx) (source : SourceCfg)
    (b : ContentMetadataBuilder) : ContentMetadataBuilder :=
  { b with derived :=
    { b.derived with
      assetName := some (getAssetNameFromSource source)
      custom := mergeKV b.derived.custom
        [("playerType", ctx.playerType),
         ("streamType", ctx.streamTypeStr),
         ("vrContentType", source.vrContentType.getD "undefined")]
      streamUrl := some (getUrlFromSource source) } }

/-- `buildContentMetadata`: derived duration, stream type and the
autoplay/preload/integration-version custom tags; source-related
metadata only when a source is loaded. -/
def buildContentMetadata (ctx : PlayerCtx) (b : ContentMetadataBuilder) :
    ContentMetadataBuilder :=
  let b1 : ContentMetadataBuilder :=
    { b with derived :=
      { b.derived with
        duration := some ctx.duration
        streamType := some (if ctx.isLive then StreamTy.live else StreamTy.vod)
        custom := mergeKV b.derived.custom
          [("autoplay", if ctx.autoplay then "true" else "false"),
           ("preload", if ctx.preload then "true" else "false"),
           ("integrationVersion", integrationVersion)] } }
  match ctx.source with
  | some src => buildSourceRelatedMetadata ctx src b1
  | none => b1

/-- `internalInitializeSession` (`ConvivaAnalytics.ts:317`): obtains a
player-state manager, registers player name/version, rebuilds the
content metadata, creates the session (fresh key), reports STOPPED,
attaches the player-state manager and, when the stashed last-seen
bitrate is truthy, applies it. The stash itself is not written here. -/
def internalInitializeSession (ctx : PlayerCtx) (s : State) : State × List Call :=
  let b1 := buildContentMetadata ctx s.builder
  let s1 : State :=
    { s with sessionKey := some s.nextKey, nextKey := s.nextKey + 1, builder := b1 }
  let calls : List Call :=
    [Call.getPlayerStateManager,
     Call.setPlayerType "Bitmovin Player",
     Call.setPlayerVersion ctx.version,
     Call.createSession b1.build,
     Call.setPlayerState PlayerState.stopped,
     Call.attachPlayer] ++
    (if truthyBitrate s.lastSeenBitrate then
      [Call.setBitrateKbps (s.lastSeenBitrate.getD 0)]
    else [])
  (s1, calls)

/-- `internalEndSession` (`ConvivaAnalytics.ts:399`): detaches the
player, cleans up the backend session, releases the player-state
manager, resets the session key to the no-session sentinel, resets the
content-metadata builder and clears the last-seen bitrate stash. (The
source performs the backend calls regardless of whether a session is
active; the public `endSession` adds the active check.) -/
def internalEndSession (s : State) : State × List Call :=
  ({ s with sessionKey := none,
            builder := s.builder.reset,
            lastSeenBitrate := none },
   [Call.detachPlayer, Call.cleanupSession, Call.releasePlayerStateManager])

/-- `updateSession`: no-op when no session is active, otherwise pushes
the freshly built content-metadata snapshot. -/
def updateSession (s : State) : State × List Call :=
  if isSessionActive s then
    (s, [Call.updateContentMetadata s.builder.build])
  else (s, [])

/-- `trackAdBreakStarted` (`ConvivaAnalytics.ts:543`): sets the ad flag,
classifies the ad position and, only with an active session, issues the
ad-start call. -/
def trackAdBreakStarted (ctx : PlayerCtx) (scheduleTime : JNum) (s : State) :
    State × List Call :=
  let s1 := { s with isAd := true }
  let adPosition := mapAdPosition scheduleTime ctx.duration
  if isSessionActive s1 then
    (s1, [Call.adStart adPosition])
  else (s1, [])

/-- `onPlaybackStateChanged` (`ConvivaAnalytics.ts:415`): suppressed
during ads and without a session; otherwise the switch over the event
type arms or clears the stall debouncer, replays a pending pre-roll
ad break on `playing`, and reports the mapped player state. -/
def onPlaybackStateChanged (ctx : PlayerCtx) (ty : StateChangeTy) (s : State) :
    State × List Call :=
  if s.isAd || ¬ isSessionActive s then (s, []) else
  match ty with
  | StateChangeTy.play =>
    ({ s with stallTimerArmed := true }, [])
  | StateChangeTy.seek =>
    ({ s with stallTimerArmed := true }, [])
  | StateChangeTy.timeShift =>
    ({ s with stallTimerArmed := true }, [])
  | StateChangeTy.stallStarted =>
    ({ s with stallTimerArmed := false },
     [Call.setPlayerState PlayerState.buffering])
  | StateChangeTy.playing =>
    let s1 := { s with stallTimerArmed := false }
    match s1.adBreakStartedToFire with
    | some t =>
      let r := trackAdBreakStarted ctx t s1
      ({ r.1 with adBreakStartedToFire := none },
       r.2 ++ [Call.setPlayerState PlayerState.playing])
    | none =>
      (s1, [Call.setPlayerState PlayerState.playing])
  | StateChangeTy.paused =>
    ({ s with stallTimerArmed := false },
     [Call.setPlayerState PlayerState.paused])
  | StateChangeTy.seeked =>
    ({ s with stallTimerArmed := false },
     [Call.setPlayerState (if ctx.isPlaying then PlayerState.playing else PlayerState.paused)])
  | StateChangeTy.timeShifted =>
    ({ s with stallTimerArmed := false },
     [Call.setPlayerState (if ctx.isPlaying then PlayerState.playing else PlayerState.paused)])
  | StateChangeTy.stallEnded =>
    ({ s with stallTimerArmed := false },
     [Call.setPlayerState (if ctx.isPlaying then PlayerState.playing else PlayerState.paused)])
  | StateChangeTy.playbackFinished =>
    ({ s with stallTimerArmed := false },
     [Call.setPlayerState PlayerState.stopped])

/-- Sequential composition of two handler results: thread the state,
append the emitted calls. -/
def andThen (r : State × List Call) (f : State → State × List Call) :
    State × List Call :=
  let r2 := f r.1
  (r2.1, r.2 ++ r2.2)

/-- `onPlay` (`ConvivaAnalytics.ts:482`): ignored during ads; creates a
session when none is active (replay after playback finished), then
forwards to the state-change switch. -/
def onPlay (ctx : PlayerCtx) (s : State) : State × List Call :=
  if s.isAd then (s, []) else
  let r :=
    if ¬ isSessionActive s then internalInitializeSession ctx s else (s, [])
  andThen r (onPlaybackStateChanged ctx StateChangeTy.play)

/-- `onPlaying` (`ConvivaAnalytics.ts:498`): marks playback started on
the builder, pushes a metadata update, forwards to the switch. -/
def onPlaying (ctx : PlayerCtx) (s : State) : State × List Call :=
  let s1 := { s with builder := { s.builder with playbackStarted := true } }
  andThen (updateSession s1) (onPlaybackStateChanged ctx StateChangeTy.playing)

/-- `onPlaybackFinished` (`ConvivaAnalytics.ts:505`): no-op without an
active session; otherwise reports STOPPED and ends the session. -/
def onPlaybackFinished (ctx : PlayerCtx) (s : State) : State × List Call :=
  if ¬ isSessionActive s then (s, []) else
  andThen (onPlaybackStateChanged ctx StateChangeTy.playbackFinished s)
    (fun s1 => internalEndSession s1)

/-- `onVideoQualityChanged` (`ConvivaAnalytics.ts:516`): rounds the raw
bitrate to kbps; stashes it when no session is active, otherwise clears
the stash and reports it immediately. -/
def onVideoQualityChanged (bitrate : ℕ) (s : State) : State × List Call :=
  let kbps := bitrateKbps bitrate
  if ¬ isSessionActive s then
    ({ s with lastSeenBitrate := some kbps }, [])
  else
    ({ s with lastSeenBitrate := none }, [Call.setBitrateKbps kbps])

/-- `onAdBreakStarted` (`ConvivaAnalytics.ts:692`): a post-roll ad break
(`scheduleTime === Infinity`) runs the playback-finished path and is
never tracked; otherwise, without a session the event is stored as the
pending ad break, with a session it is tracked immediately. -/
def onAdBreakStarted (ctx : PlayerCtx) (scheduleTime : JNum) (s : State) :
    State × List Call :=
  if scheduleTime = JNum.inf then
    onPlaybackFinished ctx s
  else if ¬ isSessionActive s then
    ({ s with adBreakStartedToFire := some scheduleTime }, [])
  else
    trackAdBreakStarted ctx scheduleTime s

/-- `onAdBreakFinished` (`ConvivaAnalytics.ts:569`): clears the ad flag;
issues the ad-end call only with an active session. -/
def onAdBreakFinished (s : State) : State × List Call :=
  let s1 := { s with isAd := false }
  if isSessionActive s1 then (s1, [Call.adEnd]) else (s1, [])

/-- `onSeek` (`ConvivaAnalytics.ts:590`): ignored without a session;
otherwise reports the seek start and forwards to the switch. -/
def onSeek (ctx : PlayerCtx) (target : ℚ) (s : State) : State × List Call :=
  if ¬ isSessionActive s then (s, []) else
  andThen (s, [Call.setSeekStart (jsRound target)])
    (onPlaybackStateChanged ctx StateChangeTy.seek)

/-- `onSeeked` (`ConvivaAnalytics.ts:601`). -/
def onSeeked (ctx : PlayerCtx) (s : State) : State × List Call :=
  if ¬ isSessionActive s then (s, []) else
  andThen (s, [Call.setSeekEnd]) (onPlaybackStateChanged ctx StateChangeTy.seeked)

/-- `onTimeShift` (`ConvivaAnalytics.ts:611`): seek start with target -1. -/
def onTimeShift (ctx : PlayerCtx) (s : State) : State × List Call :=
  if ¬ isSessionActive s then (s, []) else
  andThen (s, [Call.setSeekStart (-1)])
    (onPlaybackStateChanged ctx StateChangeTy.timeShift)

/-- `onTimeShifted` (`ConvivaAnalytics.ts:622`). -/
def onTimeShifted (ctx : PlayerCtx) (s : State) : State × List Call :=
  if ¬ isSessionActive s then (s, []) else
  andThen (s, [Call.setSeekEnd])
    (onPlaybackStateChanged ctx StateChangeTy.timeShifted)

/-- `onSourceLoaded` (`ConvivaAnalytics.ts:472`): no-op without a
session; otherwise refreshes source-related metadata and updates the
session. -/
def onSourceLoaded (ctx : PlayerCtx) (s : State) : State × List Call :=
  if ¬ isSessionActive s then (s, []) else
  let s1 :=
    match ctx.source with
    | some src => { s with builder := buildSourceRelatedMetadata ctx src s.builder }
    | none => s
  updateSession s1

/-- `onSourceUnloaded` (`ConvivaAnalytics.ts:649`): ignored during ads;
otherwise runs `internalEndSession` unconditionally (the source does not
check for an active session here). -/
def onSourceUnloaded (s : State) : State × List Call :=
  if s.isAd then (s, []) else internalEndSession s

/-- `reportPlaybackDeficiency` (`ConvivaAnalytics.ts:226`): no-op
without an active session; otherwise reports the error and, when
requested, ends the session. -/
def reportPlaybackDeficiency (msg : String) (endSess : Bool) (s : State) :
    State × List Call :=
  if ¬ isSessionActive s then (s, []) else
  andThen (s, [Call.reportError msg])
    (fun s1 => if endSess then internalEndSession s1 else (s1, []))

/-- `onError` (`ConvivaAnalytics.ts:640`): initializes a session first
when none exists (to capture video-start failures), then reports a
FATAL deficiency, which by default ends the session. -/
def onError (ctx : PlayerCtx) (msg : String) (s : State) : State × List Call :=
  let r :=
    if ¬ isSessionActive s then internalInitializeSession ctx s else (s, [])
  andThen r (reportPlaybackDeficiency msg true)

/-- `onCustomEvent` (`ConvivaAnalytics.ts:533`): forwards a flattened
custom playback event when a session is active. -/
def onCustomEvent (s : State) : State × List Call :=
  if ¬ isSessionActive s then (s, []) else (s, [Call.sendCustomEvent])

/-- The stall-tracking `Timeout` callback firing after the debounce
delay: it reports BUFFERING. It can only run while armed (a `clear()`
before the delay elapses cancels it); firing consumes the arming
(single-shot). -/
def onStallTimerFire (s : State) : State × List Call :=
  if s.stallTimerArmed then
    ({ s with stallTimerArmed := false },
     [Call.setPlayerState PlayerState.buffering])
  else (s, [])

/-- One dispatch step: the player (or the timer service) delivers one
event to the registered handler. -/
def step (ctx : PlayerCtx) (s : State) : Ev → State × List Call
  | Ev.sourceLoaded => onSourceLoaded ctx s
  | Ev.play => onPlay ctx s
  | Ev.playing => onPlaying ctx s
  | Ev.paused => onPlaybackStateChanged ctx StateChangeTy.paused s
  | Ev.stallStarted => onPlaybackStateChanged ctx StateChangeTy.stallStarted s
  | Ev.stallEnded => onPlaybackStateChanged ctx StateChangeTy.stallEnded s
  | Ev.playbackFinished => onPlaybackFinished ctx s
  | Ev.videoQualityChanged b => onVideoQualityChanged b s
  | Ev.adBreakStarted t => onAdBreakStarted ctx t s
  | Ev.adBreakFinished => onAdBreakFinished s
  | Ev.seek target => onSeek ctx target s
  | Ev.seeked => onSeeked ctx s
  | Ev.timeShift => onTimeShift ctx s
  | Ev.timeShifted => onTimeShifted ctx s
  | Ev.sourceUnloaded => onSourceUnloaded s
  | Ev.error msg => onError ctx msg s
  | Ev.custom => onCustomEvent s
  | Ev.timerFire => onStallTimerFire s

/-- Run a whole event trace, collecting every emitted backend call. -/
def run (ctx : PlayerCtx) (s : State) : List Ev → State × List Call
  | [] => (s, [])
  | e :: tr =>
    let r := step ctx s e
    let r2 := run ctx r.1 tr
    (r2.1, r.2 ++ r2.2)

/-- The ways the public `initializeSession()` can fail to open a
session: the thrown asset-name usage error (`ConvivaAnalytics.ts:145`),
or — when construction was aborted because the Conviva script was
missing — the `ReferenceError` raised by `isSessionActive()` reading
`Conviva.Client.NO_SESSION_KEY` off the absent global. -/
inductive InitFailure where
  | assetNameMissing
  | referenceErrorMissingConviva
deriving DecidableEq, Repr

/-- Public `initializeSession()` (`ConvivaAnalytics.ts:136`): with an
active session it logs a warning and returns; without a loaded source
and without an asset-name override it throws; otherwise it runs
`internalInitializeSession`. -/
def initializeSession (ctx : PlayerCtx) (s : State) :
    Except InitFailure (State × List Call) :=
  if isSessionActive s then
    Except.ok (s, [Call.logWarning])
  else if ctx.source.isNone && s.builder.assetName.isNone then
    Except.error InitFailure.assetNameMissing
  else
    Except.ok (internalInitializeSession ctx s)

/-- Public `endSession()` (`ConvivaAnalytics.ts:158`): a no-op without
an active session, otherwise `internalEndSession`. -/
def endSession (s : State) : State × List Call :=
  if ¬ isSessionActive s then (s, []) else internalEndSession s

/-- `ArrayUtils.remove` (`ConvivaAnalytics.ts:835`): `indexOf` plus
`splice(index, 1)` — removes the first occurrence only. -/
def removeFirstOcc (l : List String) (x : String) : List String :=
  match l with
  | [] => []
  | y :: ys => if y = x then ys else y :: removeFirstOcc ys x

/-- The per-type handler array of the registry object, `[]` when the
event type was never added. -/
def regLookup (l : List (String × List String)) (t : String) : List String :=
  match l with
  | [] => []
  | (k, arr) :: rest => if k = t then arr else regLookup rest t

/-- Whether the registry object already has a property for `t`. -/
def regHasKey (l : List (String × List String)) (t : String) : Bool :=
  l.any (fun kv => kv.1 = t)

/-- Replace the handler array stored under an existing key `t`. -/
def regSet (l : List (String × List String)) (t : String) (arr : List String) :
    List (String × List String) :=
  match l with
  | [] => []
  | (k, old) :: rest =>
    if k = t then (k, arr) :: rest else (k, old) :: regSet rest t arr

/-- `PlayerEventWrapper` (`ConvivaAnalytics.ts:788`): the player's live
listener list (what `player.on`/`player.off` maintain) plus the
registry's own `eventHandlers` object, an insertion-ordered map from
event-type name to an array of handlers. -/
structure PlayerEventWrapper where
  playerListeners : List (String × String) := []
  eventHandlers : List (String × List String) := []
deriving DecidableEq, Repr

/-- `player.off(eventType, callback)`: unregisters one matching
listener. -/
def offListener (l : List (String × String)) (t h : String) :
    List (String × String) :=
  match l with
  | [] => []
  | kv :: rest =>
    if kv.1 = t ∧ kv.2 = h then rest else kv :: offListener rest t h

/-- `PlayerEventWrapper.add` (`ConvivaAnalytics.ts:798`): registers on
the player and records the handler in the per-type array. -/
def PlayerEventWrapper.add (w : PlayerEventWrapper) (t h : String) :
    PlayerEventWrapper :=
  { playerListeners := w.playerListeners ++ [(t, h)]
    eventHandlers :=
      if regHasKey w.eventHandlers t then
        regSet w.eventHandlers t (regLookup w.eventHandlers t ++ [h])
      else
        w.eventHandlers ++ [(t, [h])] }

/-- `PlayerEventWrapper.remove` (`ConvivaAnalytics.ts:808`):
`player.off` plus `ArrayUtils.remove` on the recorded array. -/
def PlayerEventWrapper.remove (w : PlayerEventWrapper) (t h : String) :
    PlayerEventWrapper :=
  { playerListeners := offListener w.playerListeners t h
    eventHandlers :=
      if regHasKey w.eventHandlers t then
        regSet w.eventHandlers t (removeFirstOcc (regLookup w.eventHandlers t) h)
      else w.eventHandlers }

/-- The inner `for (const callback of this.eventHandlers[eventType])`
loop of `clear()` with JavaScript iterator semantics: the index advances
over the *live* array while `remove` splices it. `fuel` only bounds the
recursion; `clear` passes one more than the array length, which the
index/length race can never exceed. -/
def clearTypeLoop (w : PlayerEventWrapper) (t : String) (i fuel : ℕ) :
    PlayerEventWrapper :=
  match fuel with
  | 0 => w
  | fuel' + 1 =>
    let arr := regLookup w.eventHandlers t
    match arr.get? i with
    | some cb => clearTypeLoop (w.remove t cb) t (i + 1) fuel'
    | none => w

/-- `PlayerEventWrapper.clear` (`ConvivaAnalytics.ts:816`): for each
recorded event type, run the removal loop over that type's (mutating)
handler array. -/
def PlayerEventWrapper.clear (w : PlayerEventWrapper) : PlayerEventWrapper :=
  (w.eventHandlers.map Prod.fst).foldl
    (fun w' t => clearTypeLoop w' t 0 ((regLookup w'.eventHandlers t).length + 1))
    w

/-- The event-type / handler pairs registered by `registerPlayerEvents`
(`ConvivaAnalytics.ts:662`), in registration order. -/
def registeredHandlerList : List (String × String) :=
  [("SourceLoaded", "onSourceLoaded"),
   ("Play", "onPlay"),
   ("Playing", "onPlaying"),
   ("Paused", "onPlaybackStateChanged"),
   ("StallStarted", "onPlaybackStateChanged"),
   ("StallEnded", "onPlaybackStateChanged"),
   ("PlaybackFinished", "onPlaybackFinished"),
   ("VideoPlaybackQualityChanged", "onVideoQualityChanged"),
   ("AudioPlaybackQualityChanged", "onCustomEvent"),
   ("Muted", "onCustomEvent"),
   ("Unmuted", "onCustomEvent"),
   ("ViewModeChanged", "onCustomEvent"),
   ("CastStarted", "onCustomEvent"),
   ("CastStopped", "onCustomEvent"),
   ("AdBreakStarted", "onAdBreakStarted"),
   ("AdBreakFinished", "onAdBreakFinished"),
   ("AdSkipped", "onAdSkipped"),
   ("AdError", "onAdError"),
   ("SourceUnloaded", "onSourceUnloaded"),
   ("Error", "onError"),
   ("Destroy", "onDestroy"),
   ("Seek", "onSeek"),
   ("Seeked", "onSeeked"),
   ("TimeShift", "onTimeShift"),
   ("TimeShifted", "onTimeShifted")]

/-- `registerPlayerEvents`: add every handler in order. -/
def registerPlayerEvents (w : PlayerEventWrapper) : PlayerEventWrapper :=
  registeredHandlerList.foldl (fun w' th => w'.add th.1 th.2) w

/-- A constructed `ConvivaAnalytics` object: whether construction ran to
completion, the subscription registry, and the controller state. -/
structure Instance where
  initialized : Bool
  wrapper : PlayerEventWrapper
  st : State
deriving DecidableEq, Repr

/-- The constructor (`ConvivaAnalytics.ts:75`): aborts early — leaving
the object inert, with no event handlers registered — when the Conviva
global is absent (after logging an error) or when a source is already
loaded; otherwise wires up every player event and starts with the
no-session sentinel. -/
def construct (convivaPresent : Bool) (sourceAlreadyLoaded : Bool) : Instance :=
  if ¬ convivaPresent then
    { initialized := false, wrapper := {}, st := {} }
  else if sourceAlreadyLoaded then
    { initialized := false, wrapper := {}, st := {} }
  else
    { initialized := true, wrapper := registerPlayerEvents {}, st := {} }

/-- `initializeSession()` invoked on a constructed object: on an inert
object (aborted construction) the very first expression,
`isSessionActive()`, dereferences the absent `Conviva` global and raises
a `ReferenceError` — no session is created and no backend call is made. -/
def instanceInitializeSession (ctx : PlayerCtx) (inst : Instance) :
    Except InitFailure (Instance × List Call) :=
  if ¬ inst.initialized then
    Except.error InitFailure.referenceErrorMissingConviva
  else
    match initializeSession ctx inst.st with
    | Except.ok (s', calls) => Except.ok ({ inst with st := s' }, calls)
    | Except.error e => Except.error e

/-- Call classifiers used to count observable effects. -/
def isAdStartCall : Call → Bool
  | Call.adStart _ => true
  | _ => false

def isBufferingCall : Call → Bool
  | Call.setPlayerState PlayerState.buffering => true
  | _ => false

def isSetBitrateCall : Call → Bool
  | Call.setBitrateKbps _ => true
  | _ => false

def isCreateSessionCall : Call → Bool
  | Call.createSession _ => true
  | _ => false

/-- Event classifiers used to scope traces. -/
def isAdBreakStartedEv : Ev → Bool
  | Ev.adBreakStarted _ => true
  | _ => false

def isPlayingEv : Ev → Bool
  | Ev.playing => true
  | _ => false

def isQualityChangedEv : Ev → Bool
  | Ev.videoQualityChanged _ => true
  | _ => false

def isStallStartedEv : Ev → Bool
  | Ev.stallStarted => true
  | _ => false

def isTimerFireEv : Ev → Bool
  | Ev.timerFire => true
  | _ => false

/-- Events whose handler (re)arms the stall debouncer. -/
def isArmingEv : Ev → Bool
  | Ev.play => true
  | Ev.seek _ => true
  | Ev.timeShift => true
  | _ => false

/-- Events that can write the last-seen-bitrate stash or open a session
while none is active (used to scope the bitrate-replay theorems). -/
def touchesBitrateStashEv : Ev → Bool
  | Ev.videoQualityChanged _ => true
  | Ev.play => true
  | Ev.error _ => true
  | Ev.sourceUnloaded => true
  | _ => false

/-- The resolving events of the stall-debounce rule: seeked,
time-shifted, playing, paused, stall-ended. -/
def isResolvingEv : Ev → Bool
  | Ev.playing => true
  | Ev.paused => true
  | Ev.seeked => true
  | Ev.timeShifted => true
  | Ev.stallEnded => true
  | _ => false

/-- Concrete fixtures used by witnesses and counterexamples. -/
def ctxA : PlayerCtx :=
  { source := some { title := some "Movie", url := "https://example.com/stream.mpd" },
    duration := JNum.fin 10,
    isPlaying := true }

def ctxNoSrc : PlayerCtx := { duration := JNum.fin 10 }

def s0 : State := {}

def sActive : State := { sessionKey := some 0, nextKey := 1 }

/-- Extract the emitted calls of an `initializeSession` result (none on
a thrown error). -/
def initCalls (r : Except InitFailure (State × List Call)) : List Call :=
  match r with
  | Except.ok (_, calls) => calls
  | Except.error _ => []

/-- Claim C7, counterexample: with `scheduleTime = 0` and content
duration `0`, the schedule time is `≥` the duration, so the claim
demands `POSTROLL`; the code checks `scheduleTime ≤ 0` first and
returns `PREROLL`. -/
theorem mapAdPosition_zero_duration_cex :
    JNum.jle (JNum.fin 0) (JNum.fin 0) = true
    ∧ mapAdPosition (JNum.fin 0) (JNum.fin 0) = AdPosition.preroll
    ∧ AdPosition.preroll ≠ AdPosition.postroll := by
  refine ⟨by decide, rfl, by decide⟩

/-- Claim C7 (amended): `mapAdPosition` returns `PREROLL` when the
schedule time is `≤ 0`; `POSTROLL` when it is `> 0` and `≥` the content
duration (including the infinite end-of-stream sentinel); `MIDROLL`
when it lies strictly between `0` and the duration. The `≤ 0` check
takes precedence. It is a pure function of the schedule time and the
duration. -/
theorem mapAdPosition_classification (t d : JNum) :
    (t.jle (JNum.fin 0) = true → mapAdPosition t d = AdPosition.preroll)
    ∧ (t.jle (JNum.fin 0) = false → d.jle t = true →
        mapAdPosition t d = AdPosition.postroll)
    ∧ (t.jle (JNum.fin 0) = false → d.jle t = false →
        mapAdPosition t d = AdPosition.midroll) := by
  unfold mapAdPosition
  refine ⟨fun h1 => ?_, fun h1 h2 => ?_, fun h1 h2 => ?_⟩
  · simp [h1]
  · simp [h1, h2]
  · simp [h1, h2]

/-- Witness for the amended C7 theorem at concrete inputs covering all
three branches. -/
theorem mapAdPosition_classification_witness :
    mapAdPosition (JNum.fin 0) (JNum.fin 10) = AdPosition.preroll
    ∧ mapAdPosition (JNum.fin 10) (JNum.fin 10) = AdPosition.postroll
    ∧ mapAdPosition JNum.inf (JNum.fin 10) = AdPosition.postroll
    ∧ mapAdPosition (JNum.fin 5) (JNum.fin 10) = AdPosition.midroll :=
  ⟨(mapAdPosition_classification (JNum.fin 0) (JNum.fin 10)).1 (by decide),
   (mapAdPosition_classification (JNum.fin 10) (JNum.fin 10)).2.1 (by decide) (by decide),
   (mapAdPosition_classification JNum.inf (JNum.fin 10)).2.1 (by decide) (by decide),
   (mapAdPosition_classification (JNum.fin 5) (JNum.fin 10)).2.2 (by decide) (by decide)⟩

/-- Claim C2: `endSession()` is a no-op without an active session; with
one it emits exactly the detach / teardown / release-player-state-manager
calls in that order, resets the session key to the no-session sentinel,
resets the content metadata to its pristine state — so that a
subsequent override-free `build()` yields only the backend defaults —
and clears the last-seen bitrate stash. -/
theorem endSession_spec (s : State) :
    (isSessionActive s = false → endSession s = (s, []))
    ∧ (isSessionActive s = true →
        endSession s =
          ({ s with sessionKey := none,
                    builder := {},
                    lastSeenBitrate := none },
           [Call.detachPlayer, Call.cleanupSession, Call.releasePlayerStateManager])
        ∧ (endSession s).1.builder.build = Metadata.defaults) := by
  constructor
  · intro h
    simp [endSession, h]
  · intro h
    constructor
    · simp [endSession, h, internalEndSession, ContentMetadataBuilder.reset]
    · simp [endSession, h, internalEndSession, ContentMetadataBuilder.reset,
        ContentMetadataBuilder.build, Metadata.defaults, mergeKV]

/-- Witness for C2: both branches at concrete states. -/
theorem endSession_spec_witness :
    endSession s0 = (s0, [])
    ∧ endSession sActive =
        ({ sActive with sessionKey := none, builder := {}, lastSeenBitrate := none },
         [Call.detachPlayer, Call.cleanupSession, Call.releasePlayerStateManager]) :=
  ⟨(endSession_spec s0).1 rfl, ((endSession_spec sActive).2 rfl).1⟩

/-- Claim C4: an ad-break-started event with the end-of-stream sentinel
schedule time (`Infinity`) never issues an ad-start call and never
touches the pending ad-break record; it runs the playback-finished
path, which tears down an active session (and is a no-op without
one). -/
theorem postRollAdBreak_spec (ctx : PlayerCtx) (s : State) :
    (step ctx s (Ev.adBreakStarted JNum.inf)).1.adBreakStartedToFire
      = s.adBreakStartedToFire
    ∧ (step ctx s (Ev.adBreakStarted JNum.inf)).2.countP isAdStartCall = 0
    ∧ (isSessionActive s = true →
        isSessionActive (step ctx s (Ev.adBreakStarted JNum.inf)).1 = false
        ∧ Call.detachPlayer ∈ (step ctx s (Ev.adBreakStarted JNum.inf)).2
        ∧ Call.cleanupSession ∈ (step ctx s (Ev.adBreakStarted JNum.inf)).2)
    ∧ (isSessionActive s = false →
        step ctx s (Ev.adBreakStarted JNum.inf) = (s, [])) := by
  cases hsk : s.sessionKey with
  | none =>
    simp [step, onAdBreakStarted, onPlaybackFinished, isSessionActive, hsk]
  | some k =>
    by_cases had : s.isAd = true <;>
      simp [step, onAdBreakStarted, onPlaybackFinished, had, andThen,
        onPlaybackStateChanged, internalEndSession, isSessionActive, hsk,
        isAdStartCall, List.countP_cons, List.countP_nil]

/-- Witness for C4: a post-roll ad break closes the concrete active
session without any ad-start call. -/
theorem postRollAdBreak_spec_witness :
    isSessionActive (step ctxA sActive (Ev.adBreakStarted JNum.inf)).1 = false
    ∧ (step ctxA sActive (Ev.adBreakStarted JNum.inf)).2.countP isAdStartCall = 0 :=
  ⟨((postRollAdBreak_spec ctxA sActive).2.2.1 rfl).1,
   (postRollAdBreak_spec ctxA sActive).2.1⟩

/-- Claim C8 (code bug): with two handlers registered under the same
event type, `clear()` misses the second one — the `for..of` loop
iterates by index over the array that `remove`'s `splice` is shrinking,
so it skips every other element. The second handler stays registered on
the player after `clear()`, and a second `clear()` still has an effect
(it removes the survivor), contradicting both "leaves no registered
handler behind" and idempotence. -/
theorem clear_misses_concurrent_removals :
    (((PlayerEventWrapper.add (PlayerEventWrapper.add {} "Seek" "h1")
        "Seek" "h2")).clear).playerListeners = [("Seek", "h2")]
    ∧ (((PlayerEventWrapper.add (PlayerEventWrapper.add {} "Seek" "h1")
        "Seek" "h2")).clear).eventHandlers = [("Seek", ["h2"])]
    ∧ ((((PlayerEventWrapper.add (PlayerEventWrapper.add {} "Seek" "h1")
        "Seek" "h2")).clear).clear).playerListeners = [] :=
  ⟨rfl, rfl, rfl⟩

/-- Claim C9: when the Conviva global is absent at construction time the
constructor aborts early: the object stays inert, no player event
handler is registered, and a later `initializeSession()` neither
creates a session nor issues any backend call (it fails on the first
read of the absent global). -/
theorem constructWithoutConviva_inert (sourceAlreadyLoaded : Bool) (ctx : PlayerCtx) :
    (construct false sourceAlreadyLoaded).initialized = false
    ∧ (construct false sourceAlreadyLoaded).wrapper.playerListeners = []
    ∧ (construct false sourceAlreadyLoaded).wrapper.eventHandlers = []
    ∧ (construct false sourceAlreadyLoaded).st.sessionKey = none
    ∧ instanceInitializeSession ctx (construct false sourceAlreadyLoaded)
        = Except.error InitFailure.referenceErrorMissingConviva := by
  refine ⟨rfl, rfl, rfl, rfl, ?_⟩
  simp [construct, instanceInitializeSession]

/-- Claim C10: a quality-change event with raw bitrate at most 499
received while no session is active stashes a rounded value of 0 kbps;
session initialization tests the stash for truthiness, so the zero
stash is silently dropped (no bitrate call), while every non-zero
stashed value is applied. -/
theorem zeroBitrateStash_dropped (s : State) (ctx : PlayerCtx) :
    (∀ b : ℕ, b ≤ 499 → isSessionActive s = false →
      onVideoQualityChanged b s = ({ s with lastSeenBitrate := some 0 }, []))
    ∧ (s.lastSeenBitrate = some 0 →
      (internalInitializeSession ctx s).2.countP isSetBitrateCall = 0)
    ∧ (∀ bb : ℕ, bb ≠ 0 → s.lastSeenBitrate = some bb →
      Call.setBitrateKbps bb ∈ (internalInitializeSession ctx s).2
      ∧ (internalInitializeSession ctx s).2.countP isSetBitrateCall = 1) := by
  refine ⟨?_, ?_, ?_⟩
  · intro b hb hact
    have hk : bitrateKbps b = 0 := by
      unfold bitrateKbps
      omega
    simp [onVideoQualityChanged, hact, hk]
  · intro hz
    simp [internalInitializeSession, hz, truthyBitrate, isSetBitrateCall,
      List.countP_append, List.countP_cons, List.countP_nil]
  · intro bb hbb hsb
    constructor
    · simp [internalInitializeSession, hsb, truthyBitrate, hbb]
    · simp [internalInitializeSession, hsb, truthyBitrate, hbb, isSetBitrateCall,
        List.countP_append, List.countP_cons, List.countP_nil]

/-- Witness for C10 at concrete inputs: raw bitrate 100 stashes 0 kbps,
a zero stash yields no bitrate call at initialization, a 500 kbps stash
is applied. -/
theorem zeroBitrateStash_dropped_witness :
    onVideoQualityChanged 100 s0 = ({ s0 with lastSeenBitrate := some 0 }, [])
    ∧ (internalInitializeSession ctxA { s0 with lastSeenBitrate := some 0 }).2.countP
        isSetBitrateCall = 0
    ∧ Call.setBitrateKbps 500 ∈
        (internalInitializeSession ctxA { s0 with lastSeenBitrate := some 500 }).2 :=
  ⟨(zeroBitrateStash_dropped s0 ctxA).1 100 (by decide) rfl,
   (zeroBitrateStash_dropped { s0 with lastSeenBitrate := some 0 } ctxA).2.1 rfl,
   ((zeroBitrateStash_dropped { s0 with lastSeenBitrate := some 500 } ctxA).2.2
      500 (by decide) rfl).1⟩

/-- Claim C1, counterexample: with no active session, a loaded source
and a pending last-seen bitrate of 0 kbps, `initializeSession()` opens
the session but does not apply the pending bitrate — the truthiness
check drops the zero value, refuting "applies any pending last-seen
bitrate". -/
theorem initializeSession_zero_stash_cex :
    ({ s0 with lastSeenBitrate := some 0 } : State).lastSeenBitrate = some 0
    ∧ (initializeSession ctxA { s0 with lastSeenBitrate := some 0 }).isOk = true
    ∧ (initCalls (initializeSession ctxA { s0 with lastSeenBitrate := some 0 })).countP
        isCreateSessionCall = 1
    ∧ (initCalls (initializeSession ctxA { s0 with lastSeenBitrate := some 0 })).countP
        isSetBitrateCall = 0 :=
  ⟨rfl, rfl, rfl, rfl⟩

/-- Claim C1 (amended): `initializeSession()` logs a warning and opens
no new session when a session is already active; it throws the
asset-name usage error (opening no session) when no source is loaded
and no asset name resolves; otherwise it opens a new session —
registering the player name and version on the player-state manager,
pushing the freshly built content metadata in the session-create call,
setting the initial player state to `STOPPED`, attaching the
player-state manager — and applies any pending *non-zero* last-seen
bitrate (a pending 0 kbps stash is dropped by the truthiness check). -/
theorem initializeSession_spec (ctx : PlayerCtx) (s : State) :
    (isSessionActive s = true →
      initializeSession ctx s = Except.ok (s, [Call.logWarning]))
    ∧ (isSessionActive s = false → ctx.source = none →
        s.builder.assetName = none →
      initializeSession ctx s = Except.error InitFailure.assetNameMissing)
    ∧ (isSessionActive s = false →
        (ctx.source.isSome || s.builder.assetName.isSome) = true →
      ∃ s2 calls,
        initializeSession ctx s = Except.ok (s2, calls)
        ∧ isSessionActive s2 = true
        ∧ s2.sessionKey = some s.nextKey
        ∧ s2.builder = buildContentMetadata ctx s.builder
        ∧ calls =
            [Call.getPlayerStateManager,
             Call.setPlayerType "Bitmovin Player",
             Call.setPlayerVersion ctx.version,
             Call.createSession s2.builder.build,
             Call.setPlayerState PlayerState.stopped,
             Call.attachPlayer] ++
            (if truthyBitrate s.lastSeenBitrate then
              [Call.setBitrateKbps (s.lastSeenBitrate.getD 0)]
            else [])
        ∧ (∀ bb : ℕ, s.lastSeenBitrate = some bb → bb ≠ 0 →
            Call.setBitrateKbps bb ∈ calls)
        ∧ (truthyBitrate s.lastSeenBitrate = false →
            calls.countP isSetBitrateCall = 0)) := by
  refine ⟨?_, ?_, ?_⟩
  · intro hact
    simp [initializeSession, hact]
  · intro hact hsrc hname
    simp [initializeSession, hact, hsrc, hname]
  · intro hact hres
    refine ⟨(internalInitializeSession ctx s).1, (internalInitializeSession ctx s).2,
      ?_, ?_, ?_, ?_, ?_, ?_, ?_⟩
    · have : (ctx.source.isNone && s.builder.assetName.isNone) = false := by
        cases hso : ctx.source <;> cases han : s.builder.assetName <;>
          simp_all
      simp [initializeSession, hact, this]
    · simp [internalInitializeSession, isSessionActive]
    · simp [internalInitializeSession]
    · simp [internalInitializeSession]
    · simp [internalInitializeSession]
    · intro bb hbb hnz
      simp [internalInitializeSession, hbb, truthyBitrate, hnz]
    · intro hfb
      simp [internalInitializeSession, hfb, isSetBitrateCall,
        List.countP_append, List.countP_cons, List.countP_nil]

/-- Witness for the amended C1 theorem at concrete inputs, discharging
all three branches. -/
theorem initializeSession_spec_witness :
    initializeSession ctxA sActive = Except.ok (sActive, [Call.logWarning])
    ∧ initializeSession ctxNoSrc s0 = Except.error InitFailure.assetNameMissing
    ∧ ∃ s2 calls,
        initializeSession ctxA { s0 with lastSeenBitrate := some 500 }
          = Except.ok (s2, calls)
        ∧ isSessionActive s2 = true
        ∧ Call.setBitrateKbps 500 ∈ calls :=
  ⟨(initializeSession_spec ctxA sActive).1 rfl,
   (initializeSession_spec ctxNoSrc s0).2.1 rfl rfl rfl,
   by
    obtain ⟨s2, calls, h1, h2, _, _, _, h6, _⟩ :=
      (initializeSession_spec ctxA { s0 with lastSeenBitrate := some 500 }).2.2
        rfl rfl
    exact ⟨s2, calls, h1, h2, h6 500 rfl (by decide)⟩⟩


/-! Component lemmas about the internal operations, used to settle the
temporal claims without unfolding the whole step function at once. -/

@[simp] theorem andThen_fst (r : State × List Call) (f : State → State × List Call) :
    (andThen r f).1 = (f r.1).1 := rfl

@[simp] theorem andThen_snd (r : State × List Call) (f : State → State × List Call) :
    (andThen r f).2 = r.2 ++ (f r.1).2 := rfl

@[simp] theorem iis_pending (ctx : PlayerCtx) (s : State) :
    (internalInitializeSession ctx s).1.adBreakStartedToFire = s.adBreakStartedToFire := rfl

@[simp] theorem iis_isAd (ctx : PlayerCtx) (s : State) :
    (internalInitializeSession ctx s).1.isAd = s.isAd := rfl

@[simp] theorem iis_stash (ctx : PlayerCtx) (s : State) :
    (internalInitializeSession ctx s).1.lastSeenBitrate = s.lastSeenBitrate := rfl

@[simp] theorem iis_key (ctx : PlayerCtx) (s : State) :
    (internalInitializeSession ctx s).1.sessionKey = some s.nextKey := rfl

@[simp] theorem iis_armed (ctx : PlayerCtx) (s : State) :
    (internalInitializeSession ctx s).1.stallTimerArmed = s.stallTimerArmed := rfl

@[simp] theorem iis_active (ctx : PlayerCtx) (s : State) :
    isSessionActive (internalInitializeSession ctx s).1 = true := rfl

@[simp] theorem iis_countP_adStart (ctx : PlayerCtx) (s : State) :
    (internalInitializeSession ctx s).2.countP isAdStartCall = 0 := by
  unfold internalInitializeSession
  split_ifs <;> simp [isAdStartCall]

@[simp] theorem iis_countP_buffering (ctx : PlayerCtx) (s : State) :
    (internalInitializeSession ctx s).2.countP isBufferingCall = 0 := by
  unfold internalInitializeSession
  split_ifs <;> simp [isBufferingCall]

@[simp] theorem iis_countP_bitrate (ctx : PlayerCtx) (s : State) :
    (internalInitializeSession ctx s).2.countP isSetBitrateCall
      = if truthyBitrate s.lastSeenBitrate then 1 else 0 := by
  unfold internalInitializeSession
  split_ifs <;> simp [isSetBitrateCall]

@[simp] theorem ies_key (s : State) :
    (internalEndSession s).1.sessionKey = none := rfl

@[simp] theorem ies_active (s : State) :
    isSessionActive (internalEndSession s).1 = false := rfl

@[simp] theorem ies_pending (s : State) :
    (internalEndSession s).1.adBreakStartedToFire = s.adBreakStartedToFire := rfl

@[simp] theorem ies_isAd (s : State) :
    (internalEndSession s).1.isAd = s.isAd := rfl

@[simp] theorem ies_stash (s : State) :
    (internalEndSession s).1.lastSeenBitrate = none := rfl

@[simp] theorem ies_armed (s : State) :
    (internalEndSession s).1.stallTimerArmed = s.stallTimerArmed := rfl

@[simp] theorem ies_calls (s : State) :
    (internalEndSession s).2 =
      [Call.detachPlayer, Call.cleanupSession, Call.releasePlayerStateManager] := rfl

@[simp] theorem us_fst (s : State) : (updateSession s).1 = s := by
  unfold updateSession
  split_ifs <;> rfl

theorem us_calls (s : State) :
    (updateSession s).2 = []
    ∨ (updateSession s).2 = [Call.updateContentMetadata s.builder.build] := by
  unfold updateSession
  split_ifs <;> simp

@[simp] theorem us_countP_adStart (s : State) :
    (updateSession s).2.countP isAdStartCall = 0 := by
  unfold updateSession
  split_ifs <;> simp [isAdStartCall]

@[simp] theorem us_countP_buffering (s : State) :
    (updateSession s).2.countP isBufferingCall = 0 := by
  unfold updateSession
  split_ifs <;> simp [isBufferingCall]

@[simp] theorem us_countP_bitrate (s : State) :
    (updateSession s).2.countP isSetBitrateCall = 0 := by
  unfold updateSession
  split_ifs <;> simp [isSetBitrateCall]

@[simp] theorem tabs_fst (ctx : PlayerCtx) (t : JNum) (s : State) :
    (trackAdBreakStarted ctx t s).1 = { s with isAd := true } := by
  simp only [trackAdBreakStarted]
  split_ifs <;> rfl

@[simp] theorem tabs_countP_adStart (ctx : PlayerCtx) (t : JNum) (s : State) :
    (trackAdBreakStarted ctx t s).2.countP isAdStartCall
      = if isSessionActive s then 1 else 0 := by
  simp only [trackAdBreakStarted, isSessionActive]
  split_ifs <;> simp [isAdStartCall]

@[simp] theorem tabs_countP_buffering (ctx : PlayerCtx) (t : JNum) (s : State) :
    (trackAdBreakStarted ctx t s).2.countP isBufferingCall = 0 := by
  simp only [trackAdBreakStarted]
  split_ifs <;> simp [isBufferingCall]

@[simp] theorem tabs_countP_bitrate (ctx : PlayerCtx) (t : JNum) (s : State) :
    (trackAdBreakStarted ctx t s).2.countP isSetBitrateCall = 0 := by
  simp only [trackAdBreakStarted]
  split_ifs <;> simp [isSetBitrateCall]

theorem psc_ad (ctx : PlayerCtx) (ty : StateChangeTy) (s : State)
    (h : s.isAd = true) :
    onPlaybackStateChanged ctx ty s = (s, []) := by
  simp [onPlaybackStateChanged, h]

theorem psc_inactive (ctx : PlayerCtx) (ty : StateChangeTy) (s : State)
    (h : isSessionActive s = false) :
    onPlaybackStateChanged ctx ty s = (s, []) := by
  simp [onPlaybackStateChanged, h]

theorem psc_play (ctx : PlayerCtx) (s : State)
    (h1 : s.isAd = false) (h2 : isSessionActive s = true) :
    onPlaybackStateChanged ctx StateChangeTy.play s
      = ({ s with stallTimerArmed := true }, []) := by
  simp [onPlaybackStateChanged, h1, h2]

theorem psc_seek (ctx : PlayerCtx) (s : State)
    (h1 : s.isAd = false) (h2 : isSessionActive s = true) :
    onPlaybackStateChanged ctx StateChangeTy.seek s
      = ({ s with stallTimerArmed := true }, []) := by
  simp [onPlaybackStateChanged, h1, h2]

theorem psc_timeShift (ctx : PlayerCtx) (s : State)
    (h1 : s.isAd = false) (h2 : isSessionActive s = true) :
    onPlaybackStateChanged ctx StateChangeTy.timeShift s
      = ({ s with stallTimerArmed := true }, []) := by
  simp [onPlaybackStateChanged, h1, h2]

theorem psc_stallStarted (ctx : PlayerCtx) (s : State)
    (h1 : s.isAd = false) (h2 : isSessionActive s = true) :
    onPlaybackStateChanged ctx StateChangeTy.stallStarted s
      = ({ s with stallTimerArmed := false },
         [Call.setPlayerState PlayerState.buffering]) := by
  simp [onPlaybackStateChanged, h1, h2]

theorem psc_playing_pending (ctx : PlayerCtx) (s : State) (t : JNum)
    (h1 : s.isAd = false) (h2 : isSessionActive s = true)
    (hp : s.adBreakStartedToFire = some t) :
    onPlaybackStateChanged ctx StateChangeTy.playing s
      = ({ s with stallTimerArmed := false, isAd := true,
                  adBreakStartedToFire := none },
         [Call.adStart (mapAdPosition t ctx.duration),
          Call.setPlayerState PlayerState.playing]) := by
  have hk2 : s.sessionKey.isSome = true := h2
  simp [onPlaybackStateChanged, h1, h2, hp, trackAdBreakStarted,
    isSessionActive, hk2]

theorem psc_playing_none (ctx : PlayerCtx) (s : State)
    (h1 : s.isAd = false) (h2 : isSessionActive s = true)
    (hp : s.adBreakStartedToFire = none) :
    onPlaybackStateChanged ctx StateChangeTy.playing s
      = ({ s with stallTimerArmed := false },
         [Call.setPlayerState PlayerState.playing]) := by
  simp [onPlaybackStateChanged, h1, h2, hp]

theorem psc_paused (ctx : PlayerCtx) (s : State)
    (h1 : s.isAd = false) (h2 : isSessionActive s = true) :
    onPlaybackStateChanged ctx StateChangeTy.paused s
      = ({ s with stallTimerArmed := false },
         [Call.setPlayerState PlayerState.paused]) := by
  simp [onPlaybackStateChanged, h1, h2]

theorem psc_seeked (ctx : PlayerCtx) (s : State)
    (h1 : s.isAd = false) (h2 : isSessionActive s = true) :
    onPlaybackStateChanged ctx StateChangeTy.seeked s
      = ({ s with stallTimerArmed := false },
         [Call.setPlayerState
           (if ctx.isPlaying then PlayerState.playing else PlayerState.paused)]) := by
  simp [onPlaybackStateChanged, h1, h2]

theorem psc_timeShifted (ctx : PlayerCtx) (s : State)
    (h1 : s.isAd = false) (h2 : isSessionActive s = true) :
    onPlaybackStateChanged ctx StateChangeTy.timeShifted s
      = ({ s with stallTimerArmed := false },
         [Call.setPlayerState
           (if ctx.isPlaying then PlayerState.playing else PlayerState.paused)]) := by
  simp [onPlaybackStateChanged, h1, h2]

theorem psc_stallEnded (ctx : PlayerCtx) (s : State)
    (h1 : s.isAd = false) (h2 : isSessionActive s = true) :
    onPlaybackStateChanged ctx StateChangeTy.stallEnded s
      = ({ s with stallTimerArmed := false },
         [Call.setPlayerState
           (if ctx.isPlaying then PlayerState.playing else PlayerState.paused)]) := by
  simp [onPlaybackStateChanged, h1, h2]

theorem psc_playbackFinished (ctx : PlayerCtx) (s : State)
    (h1 : s.isAd = false) (h2 : isSessionActive s = true) :
    onPlaybackStateChanged ctx StateChangeTy.playbackFinished s
      = ({ s with stallTimerArmed := false },
         [Call.setPlayerState PlayerState.stopped]) := by
  simp [onPlaybackStateChanged, h1, h2]

theorem rpd_inactive (msg : String) (b : Bool) (s : State)
    (h : isSessionActive s = false) :
    reportPlaybackDeficiency msg b s = (s, []) := by
  simp [reportPlaybackDeficiency, h]

theorem rpd_active_end (msg : String) (s : State)
    (h : isSessionActive s = true) :
    reportPlaybackDeficiency msg true s
      = ({ s with sessionKey := none, builder := {}, lastSeenBitrate := none },
         [Call.reportError msg, Call.detachPlayer, Call.cleanupSession,
          Call.releasePlayerStateManager]) := by
  simp [reportPlaybackDeficiency, h, internalEndSession, andThen,
    ContentMetadataBuilder.reset]

/-- For any state-change tag other than `playing`, the switch preserves
the pending ad break and the ad flag and emits no ad-start call. -/
theorem psc_pending_isAd (ctx : PlayerCtx) (ty : StateChangeTy) (s : State)
    (hty : ty ≠ StateChangeTy.playing) :
    (onPlaybackStateChanged ctx ty s).1.adBreakStartedToFire = s.adBreakStartedToFire
    ∧ (onPlaybackStateChanged ctx ty s).1.isAd = s.isAd
    ∧ (onPlaybackStateChanged ctx ty s).2.countP isAdStartCall = 0 := by
  cases had : s.isAd with
  | true => simp [psc_ad ctx ty s had, had]
  | false =>
    cases hact : isSessionActive s with
    | false => simp [psc_inactive ctx ty s hact, had]
    | true =>
      cases ty with
      | play => simp [psc_play ctx s had hact, isAdStartCall, had]
      | seek => simp [psc_seek ctx s had hact, isAdStartCall, had]
      | timeShift => simp [psc_timeShift ctx s had hact, isAdStartCall, had]
      | stallStarted => simp [psc_stallStarted ctx s had hact, isAdStartCall, had]
      | playing => exact absurd rfl hty
      | paused => simp [psc_paused ctx s had hact, isAdStartCall, had]
      | seeked => simp [psc_seeked ctx s had hact, isAdStartCall, had]
      | timeShifted => simp [psc_timeShifted ctx s had hact, isAdStartCall, had]
      | stallEnded => simp [psc_stallEnded ctx s had hact, isAdStartCall, had]
      | playbackFinished => simp [psc_playbackFinished ctx s had hact, isAdStartCall, had]

/-- Any event other than ad-break-started and playing preserves the
pending ad-break record, never turns the ad flag on, and emits no
ad-start call. -/
theorem step_pending_inv (ctx : PlayerCtx) (s : State) (e : Ev)
    (h1 : isAdBreakStartedEv e = false) (h2 : isPlayingEv e = false) :
    (step ctx s e).1.adBreakStartedToFire = s.adBreakStartedToFire
    ∧ ((step ctx s e).1.isAd = true → s.isAd = true)
    ∧ (step ctx s e).2.countP isAdStartCall = 0 := by
  cases e with
  | sourceLoaded =>
    cases hact : isSessionActive s with
    | false => simp [step, onSourceLoaded, hact]
    | true =>
      cases hsrc : ctx.source <;>
        simp [step, onSourceLoaded, hact, hsrc]
  | play =>
    cases had : s.isAd with
    | true => simp [step, onPlay, had]
    | false =>
      cases hact : isSessionActive s with
      | true =>
        simp [step, onPlay, had, hact, psc_play ctx s had hact, isAdStartCall]
      | false =>
        have h3 : (internalInitializeSession ctx s).1.isAd = false := by
          simp [had]
        have h4 : isSessionActive (internalInitializeSession ctx s).1 = true :=
          iis_active ctx s
        simp [step, onPlay, had, hact,
          psc_play ctx (internalInitializeSession ctx s).1 h3 h4, isAdStartCall]
  | playing => simp [isPlayingEv] at h2
  | paused =>
    have h := psc_pending_isAd ctx StateChangeTy.paused s (by decide)
    refine ⟨h.1, fun hh => ?_, h.2.2⟩
    have hh2 : (onPlaybackStateChanged ctx StateChangeTy.paused s).1.isAd = true := hh
    rw [h.2.1] at hh2
    exact hh2
  | stallStarted =>
    have h := psc_pending_isAd ctx StateChangeTy.stallStarted s (by decide)
    refine ⟨h.1, fun hh => ?_, h.2.2⟩
    have hh2 : (onPlaybackStateChanged ctx StateChangeTy.stallStarted s).1.isAd = true := hh
    rw [h.2.1] at hh2
    exact hh2
  | stallEnded =>
    have h := psc_pending_isAd ctx StateChangeTy.stallEnded s (by decide)
    refine ⟨h.1, fun hh => ?_, h.2.2⟩
    have hh2 : (onPlaybackStateChanged ctx StateChangeTy.stallEnded s).1.isAd = true := hh
    rw [h.2.1] at hh2
    exact hh2
  | playbackFinished =>
    cases hact : isSessionActive s with
    | false => simp [step, onPlaybackFinished, hact]
    | true =>
      cases had : s.isAd with
      | true =>
        simp [step, onPlaybackFinished, hact, psc_ad ctx _ s had, isAdStartCall]
      | false =>
        simp [step, onPlaybackFinished, hact,
          psc_playbackFinished ctx s had hact, isAdStartCall, had]
  | videoQualityChanged b =>
    cases hact : isSessionActive s with
    | false => simp [step, onVideoQualityChanged, hact, isAdStartCall]
    | true => simp [step, onVideoQualityChanged, hact, isAdStartCall]
  | adBreakStarted t => simp [isAdBreakStartedEv] at h1
  | adBreakFinished =>
    simp only [step, onAdBreakFinished]
    split_ifs <;> simp [isAdStartCall]
  | seek target =>
    cases hact : isSessionActive s with
    | false => simp [step, onSeek, hact]
    | true =>
      have h := psc_pending_isAd ctx StateChangeTy.seek s (by decide)
      simp [step, onSeek, hact, isAdStartCall, h.1, h.2.1, h.2.2]
  | seeked =>
    cases hact : isSessionActive s with
    | false => simp [step, onSeeked, hact]
    | true =>
      have h := psc_pending_isAd ctx StateChangeTy.seeked s (by decide)
      simp [step, onSeeked, hact, isAdStartCall, h.1, h.2.1, h.2.2]
  | timeShift =>
    cases hact : isSessionActive s with
    | false => simp [step, onTimeShift, hact]
    | true =>
      have h := psc_pending_isAd ctx StateChangeTy.timeShift s (by decide)
      simp [step, onTimeShift, hact, isAdStartCall, h.1, h.2.1, h.2.2]
  | timeShifted =>
    cases hact : isSessionActive s with
    | false => simp [step, onTimeShifted, hact]
    | true =>
      have h := psc_pending_isAd ctx StateChangeTy.timeShifted s (by decide)
      simp [step, onTimeShifted, hact, isAdStartCall, h.1, h.2.1, h.2.2]
  | sourceUnloaded =>
    cases had : s.isAd with
    | true => simp [step, onSourceUnloaded, had]
    | false => simp [step, onSourceUnloaded, had, isAdStartCall]
  | error msg =>
    cases hact : isSessionActive s with
    | true =>
      simp [step, onError, hact, rpd_active_end msg s hact, isAdStartCall]
    | false =>
      have h4 : isSessionActive (internalInitializeSession ctx s).1 = true :=
        iis_active ctx s
      simp [step, onError, hact,
        rpd_active_end msg (internalInitializeSession ctx s).1 h4, isAdStartCall]
  | custom =>
    simp only [step, onCustomEvent]
    split_ifs <;> simp [isAdStartCall]
  | timerFire =>
    simp only [step, onStallTimerFire]
    split_ifs <;> simp [isAdStartCall]

/-- Trace version of `step_pending_inv`: over any trace without
ad-break-started and playing events the pending ad break survives, the
ad flag stays off, and no ad-start call is emitted. -/
theorem run_pending_inv (ctx : PlayerCtx) (tr : List Ev) :
    ∀ s : State,
      tr.all (fun e => !isAdBreakStartedEv e && !isPlayingEv e) = true →
      (run ctx s tr).1.adBreakStartedToFire = s.adBreakStartedToFire
      ∧ ((run ctx s tr).1.isAd = true → s.isAd = true)
      ∧ (run ctx s tr).2.countP isAdStartCall = 0 := by
  induction tr with
  | nil => intro s _; simp [run]
  | cons e tr ih =>
    intro s h
    rw [List.all_cons] at h
    have he := (Bool.and_eq_true _ _).mp h
    have he1 := (Bool.and_eq_true _ _).mp he.1
    have hstep := step_pending_inv ctx s e
      (by simpa using he1.1) (by simpa using he1.2)
    have hrest := ih (step ctx s e).1 he.2
    refine ⟨?_, ?_, ?_⟩
    · show (run ctx (step ctx s e).1 tr).1.adBreakStartedToFire = _
      rw [hrest.1, hstep.1]
    · intro hh
      exact hstep.2.1 (hrest.2.1 hh)
    · show ((step ctx s e).2 ++ (run ctx (step ctx s e).1 tr).2).countP _ = 0
      rw [List.countP_append, hstep.2.2, hrest.2.2]

/-- With no pending ad break, the playing branch of the switch keeps
the record empty and emits no ad-start call, whatever the guards. -/
theorem psc_playing_noPending (ctx : PlayerCtx) (s : State)
    (hp : s.adBreakStartedToFire = none) :
    (onPlaybackStateChanged ctx StateChangeTy.playing s).1.adBreakStartedToFire = none
    ∧ (onPlaybackStateChanged ctx StateChangeTy.playing s).2.countP isAdStartCall = 0 := by
  cases had : s.isAd with
  | true => simp [psc_ad ctx StateChangeTy.playing s had, hp]
  | false =>
    cases hact : isSessionActive s with
    | false => simp [psc_inactive ctx StateChangeTy.playing s hact, hp]
    | true => simp [psc_playing_none ctx s had hact hp, isAdStartCall, hp]

/-- With no pending ad break, any event other than ad-break-started
leaves the pending record empty and emits no ad-start call. -/
theorem step_noPending_inv (ctx : PlayerCtx) (s : State) (e : Ev)
    (h1 : isAdBreakStartedEv e = false)
    (hp : s.adBreakStartedToFire = none) :
    (step ctx s e).1.adBreakStartedToFire = none
    ∧ (step ctx s e).2.countP isAdStartCall = 0 := by
  cases e with
  | playing =>
    have hp1 : ({ s with builder := { s.builder with playbackStarted := true } }
        : State).adBreakStartedToFire = none := hp
    have h := psc_playing_noPending ctx
      ({ s with builder := { s.builder with playbackStarted := true } }) hp1
    constructor
    · simpa [step, onPlaying] using h.1
    · simp only [step, onPlaying, andThen_snd, List.countP_append, us_fst]
      rw [h.2, us_countP_adStart]
  | sourceLoaded =>
    have h := step_pending_inv ctx s Ev.sourceLoaded rfl rfl
    exact ⟨h.1.trans hp, h.2.2⟩
  | play =>
    have h := step_pending_inv ctx s Ev.play rfl rfl
    exact ⟨h.1.trans hp, h.2.2⟩
  | paused =>
    have h := step_pending_inv ctx s Ev.paused rfl rfl
    exact ⟨h.1.trans hp, h.2.2⟩
  | stallStarted =>
    have h := step_pending_inv ctx s Ev.stallStarted rfl rfl
    exact ⟨h.1.trans hp, h.2.2⟩
  | stallEnded =>
    have h := step_pending_inv ctx s Ev.stallEnded rfl rfl
    exact ⟨h.1.trans hp, h.2.2⟩
  | playbackFinished =>
    have h := step_pending_inv ctx s Ev.playbackFinished rfl rfl
    exact ⟨h.1.trans hp, h.2.2⟩
  | videoQualityChanged b =>
    have h := step_pending_inv ctx s (Ev.videoQualityChanged b) rfl rfl
    exact ⟨h.1.trans hp, h.2.2⟩
  | adBreakStarted t => simp [isAdBreakStartedEv] at h1
  | adBreakFinished =>
    have h := step_pending_inv ctx s Ev.adBreakFinished rfl rfl
    exact ⟨h.1.trans hp, h.2.2⟩
  | seek target =>
    have h := step_pending_inv ctx s (Ev.seek target) rfl rfl
    exact ⟨h.1.trans hp, h.2.2⟩
  | seeked =>
    have h := step_pending_inv ctx s Ev.seeked rfl rfl
    exact ⟨h.1.trans hp, h.2.2⟩
  | timeShift =>
    have h := step_pending_inv ctx s Ev.timeShift rfl rfl
    exact ⟨h.1.trans hp, h.2.2⟩
  | timeShifted =>
    have h := step_pending_inv ctx s Ev.timeShifted rfl rfl
    exact ⟨h.1.trans hp, h.2.2⟩
  | sourceUnloaded =>
    have h := step_pending_inv ctx s Ev.sourceUnloaded rfl rfl
    exact ⟨h.1.trans hp, h.2.2⟩
  | error msg =>
    have h := step_pending_inv ctx s (Ev.error msg) rfl rfl
    exact ⟨h.1.trans hp, h.2.2⟩
  | custom =>
    have h := step_pending_inv ctx s Ev.custom rfl rfl
    exact ⟨h.1.trans hp, h.2.2⟩
  | timerFire =>
    have h := step_pending_inv ctx s Ev.timerFire rfl rfl
    exact ⟨h.1.trans hp, h.2.2⟩

/-- Trace version of `step_noPending_inv`. -/
theorem run_noPending_inv (ctx : PlayerCtx) (tr : List Ev) :
    ∀ s : State,
      tr.all (fun e => !isAdBreakStartedEv e) = true →
      s.adBreakStartedToFire = none →
      (run ctx s tr).1.adBreakStartedToFire = none
      ∧ (run ctx s tr).2.countP isAdStartCall = 0 := by
  induction tr with
  | nil => intro s _ hp; simpa [run] using hp
  | cons e tr ih =>
    intro s h hp
    rw [List.all_cons] at h
    have he := (Bool.and_eq_true _ _).mp h
    have hstep := step_noPending_inv ctx s e (by simpa using he.1) hp
    have hrest := ih (step ctx s e).1 he.2 hstep.1
    refine ⟨hrest.1, ?_⟩
    show ((step ctx s e).2 ++ (run ctx (step ctx s e).1 tr).2).countP _ = 0
    rw [List.countP_append, hstep.2, hrest.2]

/-- Claim C3: an ad-break-started event with a finite schedule time
arriving while no session is active is stored as the single pending
ad break with no ad-start call; over any continuation without further
ad-break-started events, in which the first playing event is processed
after the session has been created (and no playing event precedes it),
no ad-start call is emitted before that playing event, the playing
event replays the pending ad break through the normal ad-start path
exactly once (with its classified position) and clears the pending
record, and no ad-start call is emitted afterwards. -/
theorem preRollAdBreak_deferred_replay
    (ctx : PlayerCtx) (s : State) (t : JNum) (tr1 tr2 : List Ev)
    (hfin : t ≠ JNum.inf)
    (hact : isSessionActive s = false)
    (had : s.isAd = false)
    (h1 : tr1.all (fun e => !isAdBreakStartedEv e && !isPlayingEv e) = true)
    (h2 : tr2.all (fun e => !isAdBreakStartedEv e) = true)
    (hses : isSessionActive
      (run ctx (step ctx s (Ev.adBreakStarted t)).1 tr1).1 = true) :
    (step ctx s (Ev.adBreakStarted t)).1.adBreakStartedToFire = some t
    ∧ (step ctx s (Ev.adBreakStarted t)).2.countP isAdStartCall = 0
    ∧ (run ctx (step ctx s (Ev.adBreakStarted t)).1 tr1).2.countP isAdStartCall = 0
    ∧ (step ctx (run ctx (step ctx s (Ev.adBreakStarted t)).1 tr1).1
        Ev.playing).2.countP isAdStartCall = 1
    ∧ Call.adStart (mapAdPosition t ctx.duration) ∈
        (step ctx (run ctx (step ctx s (Ev.adBreakStarted t)).1 tr1).1 Ev.playing).2
    ∧ (step ctx (run ctx (step ctx s (Ev.adBreakStarted t)).1 tr1).1
        Ev.playing).1.adBreakStartedToFire = none
    ∧ (run ctx (step ctx (run ctx (step ctx s (Ev.adBreakStarted t)).1 tr1).1
        Ev.playing).1 tr2).2.countP isAdStartCall = 0 := by
  have hstep1 : step ctx s (Ev.adBreakStarted t)
      = ({ s with adBreakStartedToFire := some t }, []) := by
    simp [step, onAdBreakStarted, hfin, hact]
  have hrun := run_pending_inv ctx tr1 (step ctx s (Ev.adBreakStarted t)).1 h1
  have hpendA : (run ctx (step ctx s (Ev.adBreakStarted t)).1 tr1).1.adBreakStartedToFire
      = some t := by
    rw [hrun.1, hstep1]
  have hadA : (run ctx (step ctx s (Ev.adBreakStarted t)).1 tr1).1.isAd = false := by
    cases hA : (run ctx (step ctx s (Ev.adBreakStarted t)).1 tr1).1.isAd with
    | false => rfl
    | true =>
      have := hrun.2.1 hA
      rw [hstep1] at this
      simp [had] at this
  set sA := (run ctx (step ctx s (Ev.adBreakStarted t)).1 tr1).1 with hsA
  have hpend1 : ({ sA with builder := { sA.builder with playbackStarted := true } }
      : State).adBreakStartedToFire = some t := hpendA
  have had1 : ({ sA with builder := { sA.builder with playbackStarted := true } }
      : State).isAd = false := hadA
  have hact1 : isSessionActive ({ sA with builder :=
      { sA.builder with playbackStarted := true } } : State) = true := hses
  have hplay := psc_playing_pending ctx
    ({ sA with builder := { sA.builder with playbackStarted := true } }) t
    had1 hact1 hpend1
  have hplayCalls : (step ctx sA Ev.playing).2
      = (updateSession ({ sA with builder :=
          { sA.builder with playbackStarted := true } })).2
        ++ [Call.adStart (mapAdPosition t ctx.duration),
            Call.setPlayerState PlayerState.playing] := by
    simp only [step, onPlaying, andThen_snd, us_fst, hplay]
  have hplayPend : (step ctx sA Ev.playing).1.adBreakStartedToFire = none := by
    simp only [step, onPlaying, andThen_fst, us_fst, hplay]
  refine ⟨by rw [hstep1], by rw [hstep1]; simp, hrun.2.2, ?_, ?_, hplayPend, ?_⟩
  · rw [hplayCalls, List.countP_append, us_countP_adStart]
    simp [isAdStartCall]
  · rw [hplayCalls]
    exact List.mem_append_right _ (List.mem_cons_self _ _)
  · exact (run_noPending_inv ctx tr2 (step ctx sA Ev.playing).1 h2 hplayPend).2

/-- Witness for C3: the spec's pre-roll scenario — deferred ad break at
schedule time 0, session created by the play event, replay at the first
playing event. -/
theorem preRollAdBreak_deferred_replay_witness :
    (step ctxA s0 (Ev.adBreakStarted (JNum.fin 0))).1.adBreakStartedToFire
      = some (JNum.fin 0)
    ∧ (run ctxA (step ctxA s0 (Ev.adBreakStarted (JNum.fin 0))).1 [Ev.play]).2.countP
        isAdStartCall = 0
    ∧ (step ctxA (run ctxA (step ctxA s0 (Ev.adBreakStarted (JNum.fin 0))).1
        [Ev.play]).1 Ev.playing).2.countP isAdStartCall = 1
    ∧ (run ctxA (step ctxA (run ctxA (step ctxA s0
        (Ev.adBreakStarted (JNum.fin 0))).1 [Ev.play]).1 Ev.playing).1
        [Ev.paused]).2.countP isAdStartCall = 0 := by
  have h := preRollAdBreak_deferred_replay ctxA s0 (JNum.fin 0) [Ev.play]
    [Ev.paused] (by decide) rfl rfl (by decide) (by decide) (by decide)
  exact ⟨h.1, h.2.2.1, h.2.2.2.1, h.2.2.2.2.2.2⟩

/-- While no session is active, no ad is in progress and no
stash-touching event (quality change, play, error, source unload)
arrives, the controller stays inactive, keeps the bitrate stash intact
and issues no bitrate call. -/
theorem step_idle_stash_inv (ctx : PlayerCtx) (s : State) (e : Ev)
    (he : touchesBitrateStashEv e = false)
    (hact : isSessionActive s = false)
    (had : s.isAd = false) :
    (step ctx s e).1.lastSeenBitrate = s.lastSeenBitrate
    ∧ isSessionActive (step ctx s e).1 = false
    ∧ (step ctx s e).1.isAd = false
    ∧ (step ctx s e).2.countP isSetBitrateCall = 0 := by
  cases e with
  | sourceLoaded => simp [step, onSourceLoaded, hact, had]
  | play => simp [touchesBitrateStashEv] at he
  | playing =>
    have hact1 : isSessionActive ({ s with builder :=
        { s.builder with playbackStarted := true } } : State) = false := hact
    have hpsc := psc_inactive ctx StateChangeTy.playing
      ({ s with builder := { s.builder with playbackStarted := true } }) hact1
    simp only [step, onPlaying, andThen_fst, andThen_snd, us_fst, hpsc]
    refine ⟨?_, ?_, ?_, ?_⟩
    · simp
    · exact hact1
    · exact had
    · rw [List.countP_append, us_countP_bitrate]
      rfl
  | paused => simp [step, psc_inactive ctx StateChangeTy.paused s hact, hact, had]
  | stallStarted =>
    simp [step, psc_inactive ctx StateChangeTy.stallStarted s hact, hact, had]
  | stallEnded =>
    simp [step, psc_inactive ctx StateChangeTy.stallEnded s hact, hact, had]
  | playbackFinished => simp [step, onPlaybackFinished, hact, had]
  | videoQualityChanged b => simp [touchesBitrateStashEv] at he
  | adBreakStarted t =>
    by_cases hinf : t = JNum.inf
    · simp [step, onAdBreakStarted, hinf, onPlaybackFinished, hact, had]
    · have hk : s.sessionKey.isSome = false := hact
      simp [step, onAdBreakStarted, hinf, hact, had, isSessionActive, hk]
  | adBreakFinished =>
    have hact1 : isSessionActive ({ s with isAd := false } : State) = false := hact
    simp [step, onAdBreakFinished, hact1, hact]
  | seek target => simp [step, onSeek, hact, had]
  | seeked => simp [step, onSeeked, hact, had]
  | timeShift => simp [step, onTimeShift, hact, had]
  | timeShifted => simp [step, onTimeShifted, hact, had]
  | sourceUnloaded => simp [touchesBitrateStashEv] at he
  | error msg => simp [touchesBitrateStashEv] at he
  | custom => simp [step, onCustomEvent, hact, had]
  | timerFire =>
    simp only [step, onStallTimerFire]
    split_ifs <;> simp [hact, had, isSetBitrateCall] <;> exact hact

/-- Trace version of `step_idle_stash_inv`. -/
theorem run_idle_stash_inv (ctx : PlayerCtx) (tr : List Ev) :
    ∀ s : State,
      tr.all (fun e => !touchesBitrateStashEv e) = true →
      isSessionActive s = false →
      s.isAd = false →
      (run ctx s tr).1.lastSeenBitrate = s.lastSeenBitrate
      ∧ isSessionActive (run ctx s tr).1 = false
      ∧ (run ctx s tr).1.isAd = false
      ∧ (run ctx s tr).2.countP isSetBitrateCall = 0 := by
  induction tr with
  | nil => intro s _ hact had; simp [run, hact, had]
  | cons e tr ih =>
    intro s h hact had
    rw [List.all_cons] at h
    have he := (Bool.and_eq_true _ _).mp h
    have hstep := step_idle_stash_inv ctx s e (by simpa using he.1) hact had
    have hrest := ih (step ctx s e).1 he.2 hstep.2.1 hstep.2.2.1
    refine ⟨?_, hrest.2.1, hrest.2.2.1, ?_⟩
    · show (run ctx (step ctx s e).1 tr).1.lastSeenBitrate = _
      rw [hrest.1, hstep.1]
    · show ((step ctx s e).2 ++ (run ctx (step ctx s e).1 tr).2).countP _ = 0
      rw [List.countP_append, hstep.2.2.2, hrest.2.2.2]

/-- Invariant for the bitrate stash: if the session is active or the
stash is empty, then any event other than a quality change keeps that
disjunction and emits no bitrate call (in particular, a session
initialization triggered inside the step finds an empty, falsy stash). -/
theorem step_J_inv (ctx : PlayerCtx) (s : State) (e : Ev)
    (he : isQualityChangedEv e = false)
    (hJ : isSessionActive s = true ∨ s.lastSeenBitrate = none) :
    (isSessionActive (step ctx s e).1 = true
      ∨ (step ctx s e).1.lastSeenBitrate = none)
    ∧ (step ctx s e).2.countP isSetBitrateCall = 0 := by
  cases e with
  | sourceLoaded =>
    cases hact : isSessionActive s with
    | false => simp [step, onSourceLoaded, hact, hJ.resolve_left (by simp [hact])]
    | true =>
      have hact1 : ∀ b : ContentMetadataBuilder,
          isSessionActive ({ s with builder := b } : State) = true := fun _ => hact
      cases hsrc : ctx.source with
      | none =>
        simp [step, onSourceLoaded, hact, hsrc, updateSession, isSetBitrateCall]
      | some src =>
        simp [step, onSourceLoaded, hact, hsrc, updateSession,
          hact1 (buildSourceRelatedMetadata ctx src s.builder), isSetBitrateCall]
  | play =>
    cases had : s.isAd with
    | true => simp [step, onPlay, had, hJ]
    | false =>
      cases hact : isSessionActive s with
      | true =>
        simp [step, onPlay, had, hact, psc_play ctx s had hact]
        exact Or.inl hact
      | false =>
        have hstash : s.lastSeenBitrate = none := hJ.resolve_left (by simp [hact])
        have h3 : (internalInitializeSession ctx s).1.isAd = false := by simp [had]
        have h4 : isSessionActive (internalInitializeSession ctx s).1 = true :=
          iis_active ctx s
        simp only [step, onPlay, had, Bool.false_eq_true, if_false, hact,
          not_false_eq_true, if_true, andThen_fst, andThen_snd,
          psc_play ctx (internalInitializeSession ctx s).1 h3 h4]
        constructor
        · exact Or.inl h4
        · rw [List.countP_append, iis_countP_bitrate]
          simp [hstash, truthyBitrate]
  | playing =>
    have hsk : isSessionActive ({ s with builder :=
        { s.builder with playbackStarted := true } } : State) = isSessionActive s := rfl
    cases had1 : ({ s with builder := { s.builder with playbackStarted := true } }
        : State).isAd with
    | true =>
      have hpsc := psc_ad ctx StateChangeTy.playing
        ({ s with builder := { s.builder with playbackStarted := true } }) had1
      simp only [step, onPlaying, andThen_fst, andThen_snd, us_fst, hpsc]
      cases hJ with
      | inl h => exact ⟨Or.inl h, by rw [List.countP_append, us_countP_bitrate]; rfl⟩
      | inr h => exact ⟨Or.inr h, by rw [List.countP_append, us_countP_bitrate]; rfl⟩
    | false =>
      cases hact : isSessionActive s with
      | false =>
        have hpsc := psc_inactive ctx StateChangeTy.playing
          ({ s with builder := { s.builder with playbackStarted := true } })
          (hsk.trans hact)
        simp only [step, onPlaying, andThen_fst, andThen_snd, us_fst, hpsc]
        exact ⟨Or.inr (hJ.resolve_left (by simp [hact])),
          by rw [List.countP_append, us_countP_bitrate]; rfl⟩
      | true =>
        cases hp : ({ s with builder := { s.builder with playbackStarted := true } }
            : State).adBreakStartedToFire with
        | none =>
          have hpsc := psc_playing_none ctx
            ({ s with builder := { s.builder with playbackStarted := true } })
            had1 (hsk.trans hact) hp
          simp only [step, onPlaying, andThen_fst, andThen_snd, us_fst, hpsc]
          refine ⟨Or.inl (by exact hact), ?_⟩
          rw [List.countP_append, us_countP_bitrate]
          simp [isSetBitrateCall]
        | some t =>
          have hpsc := psc_playing_pending ctx
            ({ s with builder := { s.builder with playbackStarted := true } }) t
            had1 (hsk.trans hact) hp
          simp only [step, onPlaying, andThen_fst, andThen_snd, us_fst, hpsc]
          refine ⟨Or.inl (by exact hact), ?_⟩
          rw [List.countP_append, us_countP_bitrate]
          simp [isSetBitrateCall]
  | paused =>
    cases had : s.isAd with
    | true => simp [step, psc_ad ctx StateChangeTy.paused s had, hJ]
    | false =>
      cases hact : isSessionActive s with
      | false => simp [step, psc_inactive ctx StateChangeTy.paused s hact,
          hJ.resolve_left (by simp [hact])]
      | true =>
        simp [step, psc_paused ctx s had hact, isSetBitrateCall]
        exact Or.inl hact
  | stallStarted =>
    cases had : s.isAd with
    | true => simp [step, psc_ad ctx StateChangeTy.stallStarted s had, hJ]
    | false =>
      cases hact : isSessionActive s with
      | false => simp [step, psc_inactive ctx StateChangeTy.stallStarted s hact,
          hJ.resolve_left (by simp [hact])]
      | true =>
        simp [step, psc_stallStarted ctx s had hact, isSetBitrateCall]
        exact Or.inl hact
  | stallEnded =>
    cases had : s.isAd with
    | true => simp [step, psc_ad ctx StateChangeTy.stallEnded s had, hJ]
    | false =>
      cases hact : isSessionActive s with
      | false => simp [step, psc_inactive ctx StateChangeTy.stallEnded s hact,
          hJ.resolve_left (by simp [hact])]
      | true =>
        simp [step, psc_stallEnded ctx s had hact, isSetBitrateCall]
        exact Or.inl hact
  | playbackFinished =>
    cases hact : isSessionActive s with
    | false => simp [step, onPlaybackFinished, hact,
        hJ.resolve_left (by simp [hact])]
    | true =>
      cases had : s.isAd with
      | true =>
        simp [step, onPlaybackFinished, hact, psc_ad ctx _ s had, isSetBitrateCall]
      | false =>
        simp [step, onPlaybackFinished, hact,
          psc_playbackFinished ctx s had hact, isSetBitrateCall]
  | videoQualityChanged b => simp [isQualityChangedEv] at he
  | adBreakStarted t =>
    by_cases hinf : t = JNum.inf
    · cases hact : isSessionActive s with
      | false => simp [step, onAdBreakStarted, hinf, onPlaybackFinished, hact,
          hJ.resolve_left (by simp [hact])]
      | true =>
        cases had : s.isAd with
        | true =>
          simp [step, onAdBreakStarted, hinf, onPlaybackFinished, hact,
            psc_ad ctx _ s had, isSetBitrateCall]
        | false =>
          simp [step, onAdBreakStarted, hinf, onPlaybackFinished, hact,
            psc_playbackFinished ctx s had hact, isSetBitrateCall]
    · cases hact : isSessionActive s with
      | false =>
        have hstash : s.lastSeenBitrate = none := hJ.resolve_left (by simp [hact])
        simp [step, onAdBreakStarted, hinf, hact, hstash]
      | true =>
        simp [step, onAdBreakStarted, hinf, hact, isSetBitrateCall]
        exact Or.inl hact
  | adBreakFinished =>
    cases hact : isSessionActive ({ s with isAd := false } : State) with
    | false =>
      simp [step, onAdBreakFinished, hact]
      exact hJ.resolve_left (by simpa [isSessionActive] using hact)
    | true =>
      simp [step, onAdBreakFinished, hact, isSetBitrateCall]
  | seek target =>
    cases hact : isSessionActive s with
    | false => simp [step, onSeek, hact, hJ.resolve_left (by simp [hact])]
    | true =>
      cases had : s.isAd with
      | true => simp [step, onSeek, hact, psc_ad ctx _ s had, isSetBitrateCall]
      | false =>
        simp [step, onSeek, hact, psc_seek ctx s had hact, isSetBitrateCall]
        exact Or.inl hact
  | seeked =>
    cases hact : isSessionActive s with
    | false => simp [step, onSeeked, hact, hJ.resolve_left (by simp [hact])]
    | true =>
      cases had : s.isAd with
      | true => simp [step, onSeeked, hact, psc_ad ctx _ s had, isSetBitrateCall]
      | false =>
        simp [step, onSeeked, hact, psc_seeked ctx s had hact, isSetBitrateCall]
        exact Or.inl hact
  | timeShift =>
    cases hact : isSessionActive s with
    | false => simp [step, onTimeShift, hact, hJ.resolve_left (by simp [hact])]
    | true =>
      cases had : s.isAd with
      | true => simp [step, onTimeShift, hact, psc_ad ctx _ s had, isSetBitrateCall]
      | false =>
        simp [step, onTimeShift, hact, psc_timeShift ctx s had hact, isSetBitrateCall]
        exact Or.inl hact
  | timeShifted =>
    cases hact : isSessionActive s with
    | false => simp [step, onTimeShifted, hact, hJ.resolve_left (by simp [hact])]
    | true =>
      cases had : s.isAd with
      | true => simp [step, onTimeShifted, hact, psc_ad ctx _ s had, isSetBitrateCall]
      | false =>
        simp [step, onTimeShifted, hact, psc_timeShifted ctx s had hact, isSetBitrateCall]
        exact Or.inl hact
  | sourceUnloaded =>
    cases had : s.isAd with
    | true => simp [step, onSourceUnloaded, had, hJ]
    | false => simp [step, onSourceUnloaded, had, isSetBitrateCall]
  | error msg =>
    cases hact : isSessionActive s with
    | true =>
      simp [step, onError, hact, rpd_active_end msg s hact, isSetBitrateCall]
    | false =>
      have h4 : isSessionActive (internalInitializeSession ctx s).1 = true :=
        iis_active ctx s
      have hstash : s.lastSeenBitrate = none := hJ.resolve_left (by simp [hact])
      simp [step, onError, hact,
        rpd_active_end msg (internalInitializeSession ctx s).1 h4,
        hstash, truthyBitrate, isSetBitrateCall]
  | custom =>
    simp only [step, onCustomEvent]
    split_ifs with h
    · exact ⟨hJ, by simp [isSetBitrateCall]⟩
    · exact ⟨hJ, by simp⟩
  | timerFire =>
    simp only [step, onStallTimerFire]
    split_ifs with h
    · refine ⟨?_, by simp [isSetBitrateCall]⟩
      cases hJ with
      | inl hh => exact Or.inl hh
      | inr hh => exact Or.inr hh
    · exact ⟨hJ, by simp⟩

/-- Trace version of `step_J_inv`: from an active session (or an empty
stash), a trace without quality-change events never emits a bitrate
call. -/
theorem run_J_inv (ctx : PlayerCtx) (tr : List Ev) :
    ∀ s : State,
      tr.all (fun e => !isQualityChangedEv e) = true →
      (isSessionActive s = true ∨ s.lastSeenBitrate = none) →
      (run ctx s tr).2.countP isSetBitrateCall = 0 := by
  induction tr with
  | nil => intro s _ _; simp [run]
  | cons e tr ih =>
    intro s h hJ
    rw [List.all_cons] at h
    have he := (Bool.and_eq_true _ _).mp h
    have hstep := step_J_inv ctx s e (by simpa using he.1) hJ
    have hrest := ih (step ctx s e).1 he.2 hstep.1
    show ((step ctx s e).2 ++ (run ctx (step ctx s e).1 tr).2).countP _ = 0
    rw [List.countP_append, hstep.2, hrest]

/-- Claim C5, counterexample: a quality change with raw bitrate 100
while no session is active stashes 0 kbps; the next session does get
initialized by the play event, yet the player-state manager never
receives the stashed value — "receives it exactly once" fails for a
zero rounded value. -/
theorem bitrate_stash_zero_cex :
    (step ctxA s0 (Ev.videoQualityChanged 100)).1.lastSeenBitrate = some 0
    ∧ isSessionActive (run ctxA s0 [Ev.videoQualityChanged 100, Ev.play]).1 = true
    ∧ (run ctxA s0 [Ev.videoQualityChanged 100, Ev.play]).2.countP
        isSetBitrateCall = 0 :=
  ⟨rfl, rfl, rfl⟩

/-- Claim C5 (amended): with an active session a quality-change event
immediately reports `round(B/1000)` kbps and clears the stash; with no
session it stashes the rounded value and reports nothing; a *non-zero*
stashed value is applied exactly once, at the next session
initialization (a zero stash is dropped by the truthiness check); and
once a session is active, no bitrate call is ever issued again without
a fresh quality-change event — in particular the stash, cleared at
session teardown, is never reapplied to a later session. -/
theorem lastSeenBitrate_spec (ctx : PlayerCtx) :
    (∀ (s : State) (b : ℕ), isSessionActive s = true →
      onVideoQualityChanged b s
        = ({ s with lastSeenBitrate := none },
           [Call.setBitrateKbps (bitrateKbps b)]))
    ∧ (∀ (s : State) (b : ℕ), isSessionActive s = false →
      onVideoQualityChanged b s
        = ({ s with lastSeenBitrate := some (bitrateKbps b) }, []))
    ∧ (∀ (s : State) (bb : ℕ) (tr1 : List Ev),
        isSessionActive s = false → s.isAd = false →
        s.lastSeenBitrate = some bb → bb ≠ 0 →
        tr1.all (fun e => !touchesBitrateStashEv e) = true →
        (run ctx s tr1).2.countP isSetBitrateCall = 0
        ∧ (step ctx (run ctx s tr1).1 Ev.play).2.countP isSetBitrateCall = 1
        ∧ Call.setBitrateKbps bb ∈ (step ctx (run ctx s tr1).1 Ev.play).2
        ∧ isSessionActive (step ctx (run ctx s tr1).1 Ev.play).1 = true)
    ∧ (∀ (s : State) (tr : List Ev), isSessionActive s = true →
        tr.all (fun e => !isQualityChangedEv e) = true →
        (run ctx s tr).2.countP isSetBitrateCall = 0) := by
  refine ⟨?_, ?_, ?_, ?_⟩
  · intro s b hact
    simp [onVideoQualityChanged, hact]
  · intro s b hact
    simp [onVideoQualityChanged, hact]
  · intro s bb tr1 hact had hstash hbb htr
    have hidle := run_idle_stash_inv ctx tr1 s htr hact had
    have hstashM : (run ctx s tr1).1.lastSeenBitrate = some bb :=
      hidle.1.trans hstash
    have hactM : isSessionActive (run ctx s tr1).1 = false := hidle.2.1
    have hadM : (run ctx s tr1).1.isAd = false := hidle.2.2.1
    have h3 : (internalInitializeSession ctx (run ctx s tr1).1).1.isAd = false := by
      simp [hadM]
    have hpsc := psc_play ctx (internalInitializeSession ctx (run ctx s tr1).1).1
      h3 (iis_active ctx (run ctx s tr1).1)
    refine ⟨hidle.2.2.2, ?_, ?_, ?_⟩
    · simp only [step, onPlay, hadM, Bool.false_eq_true, if_false, hactM,
        not_false_eq_true, if_true, andThen_snd, hpsc]
      rw [List.countP_append, iis_countP_bitrate]
      simp [hstashM, truthyBitrate, hbb]
    · simp only [step, onPlay, hadM, Bool.false_eq_true, if_false, hactM,
        not_false_eq_true, if_true, andThen_snd, hpsc]
      simp [internalInitializeSession, hstashM, truthyBitrate, hbb]
    · simp only [step, onPlay, hadM, Bool.false_eq_true, if_false, hactM,
        not_false_eq_true, if_true, andThen_fst, hpsc]
      exact iis_active ctx (run ctx s tr1).1
  · intro s tr hact htr
    exact run_J_inv ctx tr s htr (Or.inl hact)

/-- Witness for the amended C5 theorem: the spec's 500000-bit scenario
(stash 500 kbps, applied once at the next initialization) and the
no-reapplication part on an active session. -/
theorem lastSeenBitrate_spec_witness :
    onVideoQualityChanged 500000 s0
      = ({ s0 with lastSeenBitrate := some (bitrateKbps 500000) }, [])
    ∧ (step ctxA (run ctxA { s0 with lastSeenBitrate := some 500 } []).1
        Ev.play).2.countP isSetBitrateCall = 1
    ∧ Call.setBitrateKbps 500 ∈
        (step ctxA (run ctxA { s0 with lastSeenBitrate := some 500 } []).1 Ev.play).2
    ∧ (run ctxA sActive [Ev.playing, Ev.paused]).2.countP isSetBitrateCall = 0 :=
  ⟨(lastSeenBitrate_spec ctxA).2.1 s0 500000 rfl,
   ((lastSeenBitrate_spec ctxA).2.2.1 { s0 with lastSeenBitrate := some 500 }
      500 [] rfl rfl rfl (by decide) rfl).2.1,
   ((lastSeenBitrate_spec ctxA).2.2.1 { s0 with lastSeenBitrate := some 500 }
      500 [] rfl rfl rfl (by decide) rfl).2.2.1,
   (lastSeenBitrate_spec ctxA).2.2.2 sActive [Ev.playing, Ev.paused] rfl rfl⟩

/-- No branch of the state-change switch except `stallStarted` reports
BUFFERING. -/
theorem psc_countP_buffering (ctx : PlayerCtx) (ty : StateChangeTy) (s : State)
    (hty : ty ≠ StateChangeTy.stallStarted) :
    (onPlaybackStateChanged ctx ty s).2.countP isBufferingCall = 0 := by
  cases had : s.isAd with
  | true => simp [psc_ad ctx ty s had]
  | false =>
    cases hact : isSessionActive s with
    | false => simp [psc_inactive ctx ty s hact]
    | true =>
      cases ty with
      | play => simp [psc_play ctx s had hact]
      | seek => simp [psc_seek ctx s had hact]
      | timeShift => simp [psc_timeShift ctx s had hact]
      | stallStarted => exact absurd rfl hty
      | playing =>
        cases hp : s.adBreakStartedToFire with
        | none => simp [psc_playing_none ctx s had hact hp, isBufferingCall]
        | some t => simp [psc_playing_pending ctx s t had hact hp, isBufferingCall]
      | paused => simp [psc_paused ctx s had hact, isBufferingCall]
      | seeked =>
        simp only [psc_seeked ctx s had hact]
        split_ifs <;> simp [isBufferingCall]
      | timeShifted =>
        simp only [psc_timeShifted ctx s had hact]
        split_ifs <;> simp [isBufferingCall]
      | stallEnded =>
        simp only [psc_stallEnded ctx s had hact]
        split_ifs <;> simp [isBufferingCall]
      | playbackFinished => simp [psc_playbackFinished ctx s had hact, isBufferingCall]

/-- `reportPlaybackDeficiency` never reports BUFFERING. -/
theorem rpd_countP_buffering (msg : String) (b : Bool) (s : State) :
    (reportPlaybackDeficiency msg b s).2.countP isBufferingCall = 0 := by
  simp only [reportPlaybackDeficiency]
  split_ifs <;> simp [isBufferingCall]

/-- Only a stall-started event or the debounce timer firing can report
BUFFERING: every other event emits no BUFFERING call. -/
theorem step_no_buffering (ctx : PlayerCtx) (s : State) (e : Ev)
    (h1 : isStallStartedEv e = false) (h2 : isTimerFireEv e = false) :
    (step ctx s e).2.countP isBufferingCall = 0 := by
  cases e with
  | sourceLoaded =>
    simp only [step, onSourceLoaded]
    split_ifs <;> simp
  | play =>
    simp only [step, onPlay]
    split_ifs <;>
      simp [psc_countP_buffering ctx StateChangeTy.play _ (by decide),
        List.countP_append]
  | playing =>
    simp only [step, onPlaying, andThen_snd, us_fst]
    rw [List.countP_append, us_countP_buffering,
      psc_countP_buffering ctx StateChangeTy.playing _ (by decide)]
  | paused => exact psc_countP_buffering ctx StateChangeTy.paused s (by decide)
  | stallStarted => simp [isStallStartedEv] at h1
  | stallEnded => exact psc_countP_buffering ctx StateChangeTy.stallEnded s (by decide)
  | playbackFinished =>
    simp only [step, onPlaybackFinished]
    split_ifs <;>
      simp [psc_countP_buffering ctx StateChangeTy.playbackFinished s (by decide),
        List.countP_append, isBufferingCall]
  | videoQualityChanged b =>
    simp only [step, onVideoQualityChanged]
    split_ifs <;> simp [isBufferingCall]
  | adBreakStarted t =>
    simp only [step, onAdBreakStarted, onPlaybackFinished]
    split_ifs <;>
      simp [psc_countP_buffering ctx StateChangeTy.playbackFinished s (by decide),
        List.countP_append, isBufferingCall]
  | adBreakFinished =>
    simp only [step, onAdBreakFinished]
    split_ifs <;> simp [isBufferingCall]
  | seek target =>
    simp only [step, onSeek]
    split_ifs <;>
      simp [psc_countP_buffering ctx StateChangeTy.seek s (by decide),
        List.countP_append, isBufferingCall]
  | seeked =>
    simp only [step, onSeeked]
    split_ifs <;>
      simp [psc_countP_buffering ctx StateChangeTy.seeked s (by decide),
        List.countP_append, isBufferingCall]
  | timeShift =>
    simp only [step, onTimeShift]
    split_ifs <;>
      simp [psc_countP_buffering ctx StateChangeTy.timeShift s (by decide),
        List.countP_append, isBufferingCall]
  | timeShifted =>
    simp only [step, onTimeShifted]
    split_ifs <;>
      simp [psc_countP_buffering ctx StateChangeTy.timeShifted s (by decide),
        List.countP_append, isBufferingCall]
  | sourceUnloaded =>
    simp only [step, onSourceUnloaded]
    split_ifs <;> simp [isBufferingCall]
  | error msg =>
    simp only [step, onError, andThen_snd]
    rw [List.countP_append, rpd_countP_buffering]
    split_ifs <;> simp
  | custom =>
    simp only [step, onCustomEvent]
    split_ifs <;> simp [isBufferingCall]
  | timerFire => simp [isTimerFireEv] at h2

/-- For every switch tag except play/seek/time-shift, a disarmed stall
timer stays disarmed. -/
theorem psc_stays_disarmed (ctx : PlayerCtx) (ty : StateChangeTy) (s : State)
    (hty1 : ty ≠ StateChangeTy.play) (hty2 : ty ≠ StateChangeTy.seek)
    (hty3 : ty ≠ StateChangeTy.timeShift)
    (ha : s.stallTimerArmed = false) :
    (onPlaybackStateChanged ctx ty s).1.stallTimerArmed = false := by
  cases had : s.isAd with
  | true => simp [psc_ad ctx ty s had, ha]
  | false =>
    cases hact : isSessionActive s with
    | false => simp [psc_inactive ctx ty s hact, ha]
    | true =>
      cases ty with
      | play => exact absurd rfl hty1
      | seek => exact absurd rfl hty2
      | timeShift => exact absurd rfl hty3
      | stallStarted => simp [psc_stallStarted ctx s had hact]
      | playing =>
        cases hp : s.adBreakStartedToFire with
        | none => simp [psc_playing_none ctx s had hact hp]
        | some t => simp [psc_playing_pending ctx s t had hact hp]
      | paused => simp [psc_paused ctx s had hact]
      | seeked => simp [psc_seeked ctx s had hact]
      | timeShifted => simp [psc_timeShifted ctx s had hact]
      | stallEnded => simp [psc_stallEnded ctx s had hact]
      | playbackFinished => simp [psc_playbackFinished ctx s had hact]

/-- With a disarmed stall timer, any event that is not a play, seek,
time-shift or stall-started keeps the timer disarmed and reports no
BUFFERING (in particular a later timer tick is a no-op). -/
theorem step_disarmed_inv (ctx : PlayerCtx) (s : State) (e : Ev)
    (ha : s.stallTimerArmed = false)
    (h1 : isArmingEv e = false) (h2 : isStallStartedEv e = false) :
    (step ctx s e).1.stallTimerArmed = false
    ∧ (step ctx s e).2.countP isBufferingCall = 0 := by
  cases he : isTimerFireEv e with
  | true =>
    cases e <;> simp [isTimerFireEv] at he
    simp [step, onStallTimerFire, ha]
  | false =>
    refine ⟨?_, step_no_buffering ctx s e h2 he⟩
    cases e with
    | sourceLoaded =>
      simp only [step, onSourceLoaded]
      split_ifs <;> cases hsrc : ctx.source <;> simp [hsrc, ha]
    | play => simp [isArmingEv] at h1
    | playing =>
      simp only [step, onPlaying, andThen_fst, us_fst]
      exact psc_stays_disarmed ctx StateChangeTy.playing _
        (by decide) (by decide) (by decide) ha
    | paused =>
      exact psc_stays_disarmed ctx StateChangeTy.paused s
        (by decide) (by decide) (by decide) ha
    | stallStarted => simp [isStallStartedEv] at h2
    | stallEnded =>
      exact psc_stays_disarmed ctx StateChangeTy.stallEnded s
        (by decide) (by decide) (by decide) ha
    | playbackFinished =>
      simp only [step, onPlaybackFinished]
      split_ifs with hcond
      · simp only [andThen_fst, ies_armed]
        exact psc_stays_disarmed ctx StateChangeTy.playbackFinished s
          (by decide) (by decide) (by decide) ha
      · exact ha
    | videoQualityChanged b =>
      simp only [step, onVideoQualityChanged]
      split_ifs <;> simp [ha]
    | adBreakStarted t =>
      simp only [step, onAdBreakStarted, onPlaybackFinished]
      split_ifs <;>
        first
        | exact ha
        | (simp only [andThen_fst, ies_armed]
           exact psc_stays_disarmed ctx StateChangeTy.playbackFinished s
             (by decide) (by decide) (by decide) ha)
        | simp [ha]
    | adBreakFinished =>
      simp only [step, onAdBreakFinished]
      split_ifs <;> simp [ha]
    | seek target => simp [isArmingEv] at h1
    | seeked =>
      simp only [step, onSeeked]
      split_ifs with hcond
      · simp only [andThen_fst]
        exact psc_stays_disarmed ctx StateChangeTy.seeked s
          (by decide) (by decide) (by decide) ha
      · exact ha
    | timeShift => simp [isArmingEv] at h1
    | timeShifted =>
      simp only [step, onTimeShifted]
      split_ifs with hcond
      · simp only [andThen_fst]
        exact psc_stays_disarmed ctx StateChangeTy.timeShifted s
          (by decide) (by decide) (by decide) ha
      · exact ha
    | sourceUnloaded =>
      simp only [step, onSourceUnloaded]
      split_ifs <;> simp [ha]
    | error msg =>
      simp only [step, onError, andThen_fst]
      have harm : ∀ s2 : State, s2.stallTimerArmed = false →
          (reportPlaybackDeficiency msg true s2).1.stallTimerArmed = false := by
        intro s2 hs2
        simp only [reportPlaybackDeficiency]
        split_ifs <;> simp [hs2]
      split_ifs with hcond
      · exact harm _ (by simpa using ha)
      · exact harm _ ha
    | custom =>
      simp only [step, onCustomEvent]
      split_ifs <;> simp [ha]
    | timerFire => simp [isTimerFireEv] at he

/-- Trace version of `step_no_buffering`: no BUFFERING is ever reported
over a trace without stall-started events and without the debounce
window elapsing. -/
theorem run_no_buffering (ctx : PlayerCtx) (tr : List Ev) :
    ∀ s : State,
      tr.all (fun e => !isStallStartedEv e && !isTimerFireEv e) = true →
      (run ctx s tr).2.countP isBufferingCall = 0 := by
  induction tr with
  | nil => intro s _; simp [run]
  | cons e tr ih =>
    intro s h
    rw [List.all_cons] at h
    have he := (Bool.and_eq_true _ _).mp h
    have he1 := (Bool.and_eq_true _ _).mp he.1
    show ((step ctx s e).2 ++ (run ctx (step ctx s e).1 tr).2).countP _ = 0
    rw [List.countP_append,
      step_no_buffering ctx s e (by simpa using he1.1) (by simpa using he1.2),
      ih (step ctx s e).1 he.2]

/-- Trace version of `step_disarmed_inv`. -/
theorem run_disarmed_inv (ctx : PlayerCtx) (tr : List Ev) :
    ∀ s : State,
      s.stallTimerArmed = false →
      tr.all (fun e => !isStallStartedEv e && !isArmingEv e) = true →
      (run ctx s tr).1.stallTimerArmed = false
      ∧ (run ctx s tr).2.countP isBufferingCall = 0 := by
  induction tr with
  | nil => intro s ha _; simp [run, ha]
  | cons e tr ih =>
    intro s ha h
    rw [List.all_cons] at h
    have he := (Bool.and_eq_true _ _).mp h
    have he1 := (Bool.and_eq_true _ _).mp he.1
    have hstep := step_disarmed_inv ctx s e ha
      (by simpa using he1.2) (by simpa using he1.1)
    have hrest := ih (step ctx s e).1 hstep.1 he.2
    refine ⟨hrest.1, ?_⟩
    show ((step ctx s e).2 ++ (run ctx (step ctx s e).1 tr).2).countP _ = 0
    rw [List.countP_append, hstep.2, hrest.2]

/-- A play, seek or time-shift event processed with the session active
and no ad in progress arms the stall debouncer and reports nothing. -/
theorem step_arm (ctx : PlayerCtx) (s : State) (trig : Ev)
    (htrig : isArmingEv trig = true)
    (hact : isSessionActive s = true) (had : s.isAd = false) :
    (step ctx s trig).1.stallTimerArmed = true
    ∧ (step ctx s trig).2.countP isBufferingCall = 0 := by
  cases trig with
  | play => simp [step, onPlay, had, hact, psc_play ctx s had hact]
  | seek target =>
    simp [step, onSeek, hact, psc_seek ctx s had hact, isBufferingCall]
  | timeShift =>
    simp [step, onTimeShift, hact, psc_timeShift ctx s had hact, isBufferingCall]
  | _ => simp_all [isArmingEv]

/-- A resolving event (seeked, time-shifted, playing, paused,
stall-ended) processed with the session active and no ad in progress
cancels the stall debouncer and reports no BUFFERING. -/
theorem step_resolve_clears (ctx : PlayerCtx) (s : State) (res : Ev)
    (hres : isResolvingEv res = true)
    (hact : isSessionActive s = true) (had : s.isAd = false) :
    (step ctx s res).1.stallTimerArmed = false
    ∧ (step ctx s res).2.countP isBufferingCall = 0 := by
  have hbuf : (step ctx s res).2.countP isBufferingCall = 0 := by
    refine step_no_buffering ctx s res ?_ ?_ <;> cases res <;>
      simp_all [isResolvingEv, isStallStartedEv, isTimerFireEv]
  refine ⟨?_, hbuf⟩
  cases res with
  | playing =>
    simp only [step, onPlaying, andThen_fst, us_fst]
    cases hp : ({ s with builder := { s.builder with playbackStarted := true } }
        : State).adBreakStartedToFire with
    | none =>
      have h := psc_playing_none ctx
        ({ s with adBreakStartedToFire := none,
                  builder := { s.builder with playbackStarted := true } })
        had hact rfl
      simp [h]
    | some t =>
      have h := psc_playing_pending ctx
        ({ s with adBreakStartedToFire := some t,
                  builder := { s.builder with playbackStarted := true } }) t
        had hact rfl
      simp [h]
  | paused => simp [step, psc_paused ctx s had hact]
  | seeked =>
    simp only [step, onSeeked, hact]
    split_ifs with hcond
    · simp only [andThen_fst]
      simp [psc_seeked ctx s had hact]
    · simp [hact] at hcond
  | timeShifted =>
    simp only [step, onTimeShifted, hact]
    split_ifs with hcond
    · simp only [andThen_fst]
      simp [psc_timeShifted ctx s had hact]
    · simp [hact] at hcond
  | stallEnded => simp [step, psc_stallEnded ctx s had hact]
  | _ => simp_all [isResolvingEv]

/-- Claim C6, counterexample: play (session active, no ad), then an ad
break starts, then the resolving `playing` event arrives before the
debounce window elapses, with no stall-started event anywhere — yet
BUFFERING is reported: the resolving event is suppressed by the ad
guard, so it never cancels the timer, and the later timer expiry fires
BUFFERING. -/
theorem stallDebounce_cex :
    isSessionActive sActive = true
    ∧ sActive.isAd = false
    ∧ ([Ev.play, Ev.adBreakStarted (JNum.fin 5), Ev.playing,
        Ev.timerFire].all (fun e => !isStallStartedEv e)) = true
    ∧ (run ctxA sActive [Ev.play, Ev.adBreakStarted (JNum.fin 5), Ev.playing,
        Ev.timerFire]).2.countP isBufferingCall = 1 :=
  ⟨rfl, rfl, rfl, rfl⟩

/-- Claim C6 (amended): for every sequence starting with a play, seek
or time-shift event processed with the session active and no ad in
progress, followed — with no intervening stall-started event and before
the debounce window elapses — by a resolving event (seeked,
time-shifted, playing, paused or stall-ended) that is itself processed
with the session still active and no ad in progress, BUFFERING is never
reported, neither during the sequence nor afterwards while no new
play/seek/time-shift or stall-started event arrives (a later timer
expiry is a no-op because the resolving event disarmed the timer); a
stall-started event processed with the session active and no ad in
progress cancels the timer and reports BUFFERING immediately. -/
theorem stallDebounce_spec
    (ctx : PlayerCtx) (s : State) (trig res : Ev) (tr1 tr2 : List Ev)
    (htrig : isArmingEv trig = true)
    (hact : isSessionActive s = true) (had : s.isAd = false)
    (h1 : tr1.all (fun e => !isStallStartedEv e && !isTimerFireEv e) = true)
    (hres : isResolvingEv res = true)
    (hactM : isSessionActive (run ctx (step ctx s trig).1 tr1).1 = true)
    (hadM : (run ctx (step ctx s trig).1 tr1).1.isAd = false)
    (h2 : tr2.all (fun e => !isStallStartedEv e && !isArmingEv e) = true) :
    (step ctx s trig).1.stallTimerArmed = true
    ∧ (step ctx s trig).2.countP isBufferingCall = 0
    ∧ (run ctx (step ctx s trig).1 tr1).2.countP isBufferingCall = 0
    ∧ (step ctx (run ctx (step ctx s trig).1 tr1).1 res).1.stallTimerArmed = false
    ∧ (step ctx (run ctx (step ctx s trig).1 tr1).1 res).2.countP
        isBufferingCall = 0
    ∧ (run ctx (step ctx (run ctx (step ctx s trig).1 tr1).1 res).1 tr2).2.countP
        isBufferingCall = 0
    ∧ step ctx s Ev.stallStarted
        = ({ s with stallTimerArmed := false },
           [Call.setPlayerState PlayerState.buffering]) := by
  have harm := step_arm ctx s trig htrig hact had
  have hres1 := step_resolve_clears ctx (run ctx (step ctx s trig).1 tr1).1 res
    hres hactM hadM
  refine ⟨harm.1, harm.2, run_no_buffering ctx tr1 _ h1, hres1.1, hres1.2,
    (run_disarmed_inv ctx tr2 _ hres1.1 h2).2, ?_⟩
  simp [step, psc_stallStarted ctx s had hact]

/-- Witness for the amended C6 theorem: play arms the debouncer, the
playing event cancels it, and the later timer expiry reports nothing. -/
theorem stallDebounce_spec_witness :
    (step ctxA sActive Ev.play).1.stallTimerArmed = true
    ∧ (step ctxA (run ctxA (step ctxA sActive Ev.play).1 []).1
        Ev.playing).1.stallTimerArmed = false
    ∧ (run ctxA (step ctxA (run ctxA (step ctxA sActive Ev.play).1 []).1
        Ev.playing).1 [Ev.timerFire]).2.countP isBufferingCall = 0
    ∧ step ctxA sActive Ev.stallStarted
        = ({ sActive with stallTimerArmed := false },
           [Call.setPlayerState PlayerState.buffering]) := by
  have h := stallDebounce_spec ctxA sActive Ev.play Ev.playing [] [Ev.timerFire]
    rfl rfl rfl rfl rfl rfl rfl rfl
  exact ⟨h.1, h.2.2.2.1, h.2.2.2.2.2.1, h.2.2.2.2.2.2⟩
